import Mathlib

/-!
Shallow embedding of the orchestration core of the repository
(`apps/ai/src/orchestration/{models,policy,review,graph}.py`):
the run-state data model, the policy engine, the sentinel issue
classifier, the review agent's retry decision, and the graph nodes
around review and policy enforcement.  Python strings that are
processed character by character (policy directive capture and
matching) are modelled as `List Char`; strings only carried around
as messages are modelled as `String`.  Python `int` is modelled as
`Int`, dictionaries as association lists or total functions, and
`None` / missing `TypedDict` keys as `Option`.
-/

/-- Characters of a Python string, for character-level processing. -/
abbrev Chars := List Char

/-- Python `str.isspace` / regex whitespace class, as used by `str.strip()` and the regex. -/
def isSpaceChar (c : Char) : Bool := c.isWhitespace

/-- Python regex word character (for the word boundary in the directive regexes). -/
def isWordChar (c : Char) : Bool := c.isAlphanum || c == '_'

/-- Python `str.lower()` over the character list. -/
def lowerChars (cs : Chars) : Chars := cs.map Char.toLower

/-- Python `str.strip()` with no arguments: drop whitespace from both ends. -/
def trimChars (cs : Chars) : Chars :=
  (((cs.dropWhile isSpaceChar).reverse).dropWhile isSpaceChar).reverse

/-- Test for the trailing-punctuation characters stripped by `_clean_pattern`. -/
def isDotBang (c : Char) : Bool := c == '.' || c == '!'

/-- Python `str.strip(".!")`: drop the characters `.` and `!` from both ends. -/
def stripDotBang (cs : Chars) : Chars :=
  (((cs.dropWhile isDotBang).reverse).dropWhile isDotBang).reverse

/-- Python substring test `pat in hay` (contiguous substring). -/
def containsSub (hay pat : Chars) : Bool :=
  match hay with
  | [] => pat.isEmpty
  | _ :: rest => pat.isPrefixOf hay || containsSub rest pat

/-- Values found in the open `dict[str, Any]` payload/metadata maps of a request. -/
inductive PyVal where
  | str (v : Chars)
  | int (v : Int)
  | list (vs : List PyVal)
  | dict (kvs : List (Chars × PyVal))

/-- Python truthiness of a `PyVal`, as used by the `or` chain in `_resolve_tenant`. -/
def pyTruthy : PyVal → Bool
  | .str v => !v.isEmpty
  | .int v => v != 0
  | .list vs => !vs.isEmpty
  | .dict kvs => !kvs.isEmpty

/-- Python `str(value)` as applied by `_resolve_tenant`; claims only ever evaluate it
on string values, where it is the identity. -/
def pyStr : PyVal → Chars
  | .str v => v
  | .int v => (toString v).toList
  | .list _ => [ '[' , ']' ]
  | .dict _ => [ '\x7b' , '\x7d' ]

/-- Lookup in a Python dict modelled as an association list (`dict.get(key)`). -/
def dictGet (kvs : List (Chars × PyVal)) (key : Chars) : Option PyVal :=
  match kvs with
  | [] => none
  | (k, v) :: rest => if k = key then some v else dictGet rest key

/-! ## Policy engine (`policy.py`) -/

/-- Directive kinds of `PolicyDirective` (`DirectiveLiteral`). -/
inductive DirectiveKind where
  | never_do
  | notify_if
deriving DecidableEq

/-- Embedding of the `PolicyDirective` dataclass; `pattern` is stored after the
`__post_init__` normalisation (strip + lower). -/
structure PolicyDirective where
  directive : DirectiveKind
  pattern : Chars
deriving DecidableEq

/-- Constructor of `PolicyDirective` including the `__post_init__` normalisation:
strip and lowercase the pattern, and reject an empty result (`ValueError` becomes `none`). -/
def mkPolicyDirective (kind : DirectiveKind) (pattern : Chars) : Option PolicyDirective :=
  let cleaned := lowerChars (trimChars pattern)
  if cleaned.isEmpty then none else some ⟨kind, cleaned⟩

/-- Embedding of `InMemoryPolicyStore._storage` as a total map from tenant key to
directive list; missing tenants map to the empty list (`dict.get(key, [])`). -/
def PolicyStore := Chars → List PolicyDirective

/-- Store with no directives for any tenant. -/
def emptyPolicyStore : PolicyStore := fun _ => []

/-- Tenant-key defaulting shared by the store methods (`tenant_id or "default"`). -/
def tenantKey (t : Chars) : Chars := if t.isEmpty then "default".toList else t

/-- Embedding of `InMemoryPolicyStore.get_directives`. -/
def getDirectives (st : PolicyStore) (t : Chars) : List PolicyDirective :=
  st (tenantKey t)

/-- Loop body of `InMemoryPolicyStore.add_directives`: append each directive that is not
already present, collecting the ones actually added. -/
def addLoop (current : List PolicyDirective) (ds : List PolicyDirective) :
    List PolicyDirective × List PolicyDirective :=
  match ds with
  | [] => (current, [])
  | d :: rest =>
      if d ∈ current then addLoop current rest
      else
        let r := addLoop (current ++ [d]) rest
        (r.1, d :: r.2)

/-- Embedding of `InMemoryPolicyStore.add_directives`: returns the updated store and
the list of directives that were newly added. -/
def addDirectives (st : PolicyStore) (t : Chars) (ds : List PolicyDirective) :
    PolicyStore × List PolicyDirective :=
  let key := tenantKey t
  let r := addLoop (st key) ds
  (fun t2 => if t2 = key then r.1 else st t2, r.2)

/-- Embedding of the `Audience` model (plays no role in policy text flattening). -/
structure Audience where
  recipients : List Chars
  segment_id : Option Chars := none

/-- Embedding of `OrchestrationRequest`. -/
structure OrchestrationRequest where
  request_id : Chars
  intent : Chars
  channel : Chars := "demo".toList
  audience : Option Audience := none
  payload : List (Chars × PyVal) := []
  metadata : List (Chars × PyVal) := []

/-- Embedding of `_resolve_tenant`: first truthy value among the tenant metadata keys,
else `"default"`, passed through `str(...)`. -/
def resolveTenant (req : OrchestrationRequest) : Chars :=
  let pick := fun (key : String) (next : Chars) =>
    match dictGet req.metadata key.toList with
    | some v => if pyTruthy v then pyStr v else next
    | none => next
  pick "tenant_id" (pick "tenant" (pick "workspace_id" (pick "account_id" "default".toList)))

mutual

/-- Recursive value flattening of `_flatten_request_text._flatten`. -/
def flattenVal : PyVal → List Chars
  | .str v => [v]
  | .int v => [(toString v).toList]
  | .list vs => flattenList vs
  | .dict kvs => flattenKvs kvs

/-- Flattening of list values (`list`/`tuple`/`set` branch of `_flatten`). -/
def flattenList : List PyVal → List Chars
  | [] => []
  | v :: rest => flattenVal v ++ flattenList rest

/-- Flattening of dict values (`dict` branch of `_flatten` walks `value.values()`). -/
def flattenKvs : List (Chars × PyVal) → List Chars
  | [] => []
  | (_, v) :: rest => flattenVal v ++ flattenKvs rest

end

/-- Python `" ".join(parts)`. -/
def joinSpace : List Chars → Chars
  | [] => []
  | [p] => p
  | p :: rest => p ++ (' ' :: joinSpace rest)

/-- Embedding of `_flatten_request_text`: intent, channel, metadata and payload values
flattened, lowercased, blank parts dropped, joined on spaces and stripped. -/
def flattenRequestText (req : OrchestrationRequest) : Chars :=
  let parts := [req.intent, req.channel] ++ flattenKvs req.metadata ++ flattenKvs req.payload
  trimChars (joinSpace ((parts.filter (fun p => !p.isEmpty)).map lowerChars))

/-- Embedding of `PolicyDecision` (reason and tags rendered back into `String`). -/
structure PolicyDecision where
  allowed : Bool := true
  reason : String := "Request satisfies policy checks"
  requires_human : Bool := false
  policy_version : Option String := none
  tags : List String := []
deriving DecidableEq

/-- Stable insertion sort used to model Python `sorted` over strings. -/
def insertStr (x : String) : List String → List String
  | [] => [x]
  | y :: rest => if x ≤ y then x :: y :: rest else y :: insertStr x rest

/-- Python `sorted(tags)` for a list of strings. -/
def sortedStrs : List String → List String
  | [] => []
  | x :: rest => insertStr x (sortedStrs rest)

/-- Python `str.replace(" ", "_")` over a character list. -/
def underscoreSpaces (cs : Chars) : Chars :=
  cs.map (fun c => if c = ' ' then '_' else c)

/-- Scan of the `never_do` directive loop of `PolicyEngine.evaluate`: the first
`never_do` directive whose pattern occurs in the flattened request text. -/
def firstNeverMatch (ds : List PolicyDirective) (text : Chars) : Option PolicyDirective :=
  match ds with
  | [] => none
  | d :: rest =>
      if d.directive = DirectiveKind.never_do && containsSub text d.pattern then some d
      else firstNeverMatch rest text

/-- Matching `notify_if` directives, in order (second loop of `PolicyEngine.evaluate`). -/
def notifyMatches (ds : List PolicyDirective) (text : Chars) : List PolicyDirective :=
  ds.filter (fun d => d.directive = DirectiveKind.notify_if && containsSub text d.pattern)

/-- Insertion into the model of the Python `set` of tags: skip if already present. -/
def addTag (tags : List String) (t : String) : List String :=
  if t ∈ tags then tags else tags ++ [t]

/-- Folding `addTag` over a batch of tags. -/
def addTags (tags : List String) (ts : List String) : List String :=
  ts.foldl addTag tags

/-- Embedding of `PolicyEngine.evaluate` with the store as an explicit argument
(the engine holds `_policy_version = "mongo/v1"` by default).  The Python `set`
of tags is modelled as a duplicate-free list, returned sorted. -/
def policyEvaluate (st : PolicyStore) (req : OrchestrationRequest) : PolicyDecision :=
  let tenant := resolveTenant req
  let escal := ("escalate".toList).isPrefixOf (lowerChars req.intent)
  let tags0 : List String := if escal then ["escalation"] else []
  let prio : Bool :=
    match dictGet req.metadata ("priority".toList) with
    | some (PyVal.str v) => v == "high".toList
    | _ => false
  let tags1 := addTags tags0 (if prio then ["priority:high"] else [])
  let directives := getDirectives st tenant
  let text := flattenRequestText req
  match firstNeverMatch directives text with
  | some d =>
      { allowed := false
        requires_human := true
        reason := "Blocked by directive '" ++ String.mk d.pattern ++ "'"
        policy_version := some "mongo/v1"
        tags := sortedStrs (addTags tags1 ["policy:block",
          "policy:tenant:" ++ String.mk tenant,
          "policy:block:" ++ String.mk (underscoreSpaces d.pattern)]) }
  | none =>
      let notif := notifyMatches directives text
      let tags2 := notif.foldl (fun acc d =>
        addTags acc ["policy:notify", "watch:" ++ String.mk (underscoreSpaces d.pattern)]) tags1
      let requiresHuman := escal || !notif.isEmpty
      { allowed := true
        requires_human := requiresHuman
        reason := if requiresHuman then "Requires human review before dispatch"
                  else "Policy check passed"
        policy_version := some "mongo/v1"
        tags := sortedStrs tags2 }

/-! ## Directive capture (`PolicyFeedbackAgent`)

The two regexes of the source are concrete, so they are embedded as explicit
matchers, including the backtracking Python `re` performs between a greedy
`\s+` and the following `[^.!]+` and around the optional `(?:\s+do)?` group. -/

/-- Greedy run of `[^.!]+`. -/
def takeNonStop (cs : Chars) : Chars := cs.takeWhile (fun c => !isDotBang c)

/-- Match of the regex fragment `\s+([^.!]+)` at the head of `cs`, with Python's
backtracking: the greedy `\s+` gives one character back when `[^.!]+` would
otherwise be empty.  Returns the captured group and the rest after the match. -/
def matchSpacePat (cs : Chars) : Option (Chars × Chars) :=
  let w := cs.takeWhile isSpaceChar
  if w.isEmpty then none
  else
    let r := cs.dropWhile isSpaceChar
    let pat := takeNonStop r
    if !pat.isEmpty then some (pat, r.drop pat.length)
    else if 2 ≤ w.length then some (w.drop (w.length - 1), r)
    else none

/-- Match of the regex tail `(?:\s+do)?\s+([^.!]+)` right after a literal `never`:
first with the optional `\s+do` group (whose `\s+` must be the maximal whitespace
run for `do` to follow), then without it. -/
def matchAfterNever (cs : Chars) : Option (Chars × Chars) :=
  let viaDo :=
    let w1 := cs.takeWhile isSpaceChar
    if w1.isEmpty then none
    else
      let r1 := cs.dropWhile isSpaceChar
      if ("do".toList).isPrefixOf r1 then matchSpacePat (r1.drop 2) else none
  match viaDo with
  | some res => some res
  | none => matchSpacePat cs

/-- Match of the regex tail `\s+me\s+if\s+([^.!]+)` right after a literal `tell`. -/
def matchAfterTell (cs : Chars) : Option (Chars × Chars) :=
  let w1 := cs.takeWhile isSpaceChar
  if w1.isEmpty then none
  else
    let r1 := cs.dropWhile isSpaceChar
    if ("me".toList).isPrefixOf r1 then
      let r2 := r1.drop 2
      let w2 := r2.takeWhile isSpaceChar
      if w2.isEmpty then none
      else
        let r3 := r2.dropWhile isSpaceChar
        if ("if".toList).isPrefixOf r3 then matchSpacePat (r3.drop 2) else none
    else none

/-- Word-boundary test of `\b` before a word character: start of text or a
preceding non-word character. -/
def boundaryBefore (prev : Option Char) : Bool :=
  match prev with
  | none => true
  | some c => !isWordChar c

/-- Scanner of `re.finditer` for a pattern `\b<lit>...`: at each position with a word
boundary where the literal matches, run the tail matcher; on a match, emit the
captured group and resume after the match (non-overlapping), else advance one
character.  `fuel` bounds the recursion (call sites pass the text length). -/
def finditerFrom (lit : Chars) (tail : Chars → Option (Chars × Chars)) :
    Nat → Option Char → Chars → List Chars
  | 0, _, _ => []
  | Nat.succ fuel, prev, cs =>
      match cs with
      | [] => []
      | c :: rest =>
          if boundaryBefore prev ∧ lit.isPrefixOf (c :: rest) then
            match tail ((c :: rest).drop lit.length) with
            | some (pat, after) =>
                pat :: finditerFrom lit tail fuel pat.getLast? after
            | none => finditerFrom lit tail fuel (some c) rest
          else finditerFrom lit tail fuel (some c) rest

/-- All captures of `_NEVER_PATTERN.finditer` (`\bnever(?:\s+do)?\s+([^.!]+)`,
case-insensitive, so the scan runs over the lowercased text as the literals and
classes involved are case-stable). -/
def findNever (cs : Chars) : List Chars :=
  finditerFrom ("never".toList) matchAfterNever cs.length none (lowerChars cs)

/-- All captures of `_NOTIFY_PATTERN.finditer` (`\btell\s+me\s+if\s+([^.!]+)`). -/
def findNotify (cs : Chars) : List Chars :=
  finditerFrom ("tell".toList) matchAfterTell cs.length none (lowerChars cs)

/-- Embedding of `PolicyFeedbackAgent._clean_pattern`: strip whitespace, then
strip `.` and `!` from both ends. -/
def cleanPattern (cs : Chars) : Chars := stripDotBang (trimChars cs)

/-- Embedding of `PolicyFeedbackAgent._parse_instruction`: never-directives from all
`_NEVER_PATTERN` matches, then notify-directives from all `_NOTIFY_PATTERN` matches;
empty cleaned patterns and `ValueError`s are skipped. -/
def parseInstruction (text : Chars) : List PolicyDirective :=
  ((findNever text).filterMap (fun p =>
      let ex := cleanPattern p
      if ex.isEmpty then none else mkPolicyDirective DirectiveKind.never_do ex)) ++
  ((findNotify text).filterMap (fun p =>
      let ex := cleanPattern p
      if ex.isEmpty then none else mkPolicyDirective DirectiveKind.notify_if ex))

/-- Embedding of `_normalize_text_source`: a string value yields itself, a list value
yields its string items, everything else yields nothing.  (A dict value is iterable
in Python and yields its keys.) -/
def normalizeTextSource : Option PyVal → List Chars
  | none => []
  | some (.str v) => [v]
  | some (.list vs) => vs.filterMap (fun v => match v with | .str s => some s | _ => none)
  | some (.dict kvs) => kvs.map Prod.fst
  | some (.int _) => []

/-- Embedding of `PolicyFeedbackAgent._extract_candidate_text`: the three metadata
feedback keys unconditionally, plus the three payload keys when their text contains
`never` or `tell me if`; all values stripped, blanks dropped. -/
def extractCandidateText (req : OrchestrationRequest) : List Chars :=
  let metaCands :=
    normalizeTextSource (dictGet req.metadata ("policy_feedback".toList)) ++
    normalizeTextSource (dictGet req.metadata ("user_policy_feedback".toList)) ++
    normalizeTextSource (dictGet req.metadata ("user_directives".toList))
  let payloadCands :=
    normalizeTextSource (dictGet req.payload ("message".toList)) ++
    normalizeTextSource (dictGet req.payload ("text".toList)) ++
    normalizeTextSource (dictGet req.payload ("instructions".toList))
  let filteredPayload := payloadCands.filter (fun t =>
    containsSub (lowerChars t) ("never".toList) ||
    containsSub (lowerChars t) ("tell me if".toList))
  ((metaCands ++ filteredPayload).map trimChars).filter (fun t => !t.isEmpty)

/-- Embedding of `PolicyFeedbackAgent.capture`: parse directives out of every candidate
text and add them to the tenant's stored set; returns the directives actually stored
(the `added` list) and the updated store. -/
def capture (st : PolicyStore) (req : OrchestrationRequest) :
    List PolicyDirective × PolicyStore :=
  let tenant := resolveTenant req
  let directives := (extractCandidateText req).foldl
    (fun acc text => acc ++ parseInstruction text) []
  if directives.isEmpty then ([], st)
  else
    let r := addDirectives st tenant directives
    (r.2, r.1)

/-! ## Run-state data model (`models.py`) -/

/-- Embedding of the `WorkflowStatus` enum. -/
inductive WorkflowStatus where
  | QUEUED | ROUTING | POLICY_CHECK | FETCHING_CONTEXT | PLANNING | REFLECTING
  | DISPATCHING | REVIEWING | UPDATING_MEMORY | COMPLETED | FAILED
deriving DecidableEq

/-- Python `str(...)` of a `WorkflowStatus` member (plain `str`-mixin enums render as
`ClassName.MEMBER`). -/
def statusPyStr : Option WorkflowStatus → String
  | none => "unknown"
  | some WorkflowStatus.QUEUED => "WorkflowStatus.QUEUED"
  | some WorkflowStatus.ROUTING => "WorkflowStatus.ROUTING"
  | some WorkflowStatus.POLICY_CHECK => "WorkflowStatus.POLICY_CHECK"
  | some WorkflowStatus.FETCHING_CONTEXT => "WorkflowStatus.FETCHING_CONTEXT"
  | some WorkflowStatus.PLANNING => "WorkflowStatus.PLANNING"
  | some WorkflowStatus.REFLECTING => "WorkflowStatus.REFLECTING"
  | some WorkflowStatus.DISPATCHING => "WorkflowStatus.DISPATCHING"
  | some WorkflowStatus.REVIEWING => "WorkflowStatus.REVIEWING"
  | some WorkflowStatus.UPDATING_MEMORY => "WorkflowStatus.UPDATING_MEMORY"
  | some WorkflowStatus.COMPLETED => "WorkflowStatus.COMPLETED"
  | some WorkflowStatus.FAILED => "WorkflowStatus.FAILED"

/-- Embedding of the `ReviewAction` enum. -/
inductive ReviewAction where
  | RETRY
  | COMPLETE
deriving DecidableEq

/-- The `value` string of a `ReviewAction` member. -/
def reviewActionValue : ReviewAction → String
  | ReviewAction.RETRY => "retry"
  | ReviewAction.COMPLETE => "complete"

/-- Embedding of the `ReviewIssueCategory` enum. -/
inductive ReviewIssueCategory where
  | POLICY | PLUGIN | CONTEXT | PLANNING | EXECUTION | VALIDATION | OTHER
deriving DecidableEq

/-- Values stored in the structured-data dictionaries held by run state (event data,
issue context, routing context).  `null` models Python `None`; `drecs` models a list
of directive records. -/
inductive JVal where
  | s (v : String)
  | b (v : Bool)
  | i (v : Int)
  | ls (v : List String)
  | drecs (v : List PolicyDirective)
  | null
deriving DecidableEq

/-- Structured-data dictionary with string keys. -/
abbrev SDict := List (String × JVal)

/-- Dict lookup (`d.get(key)`). -/
def jGet : SDict → String → Option JVal
  | [], _ => none
  | (k, v) :: rest, key => if k = key then some v else jGet rest key

/-- Dict assignment `d[key] = v`: replace in place or append. -/
def jSet : SDict → String → JVal → SDict
  | [], key, v => [(key, v)]
  | (k0, v0) :: rest, key, v =>
      if k0 = key then (k0, v) :: rest else (k0, v0) :: jSet rest key v

/-- List-valued dict read with default, `len(d.get(key, []))`-style. -/
def jGetLs (d : SDict) (key : String) : List String :=
  match jGet d key with
  | some (JVal.ls v) => v
  | _ => []

/-- String-valued dict read with default, `d.get(key, "")`-style. -/
def jGetStr (d : SDict) (key : String) : String :=
  match jGet d key with
  | some (JVal.s v) => v
  | _ => ""

/-- Python truthiness of an optional dict-valued state field (`None` and `{}` are falsy). -/
def dictTruthy : Option SDict → Bool
  | none => false
  | some d => !d.isEmpty

/-- Python truthiness of an optional string-valued state field (`None` and `""` are falsy). -/
def strTruthy : Option String → Bool
  | none => false
  | some v => !v.isEmpty

/-- Embedding of the `ReviewIssue` model (severity is a plain string in the source). -/
structure ReviewIssue where
  category : ReviewIssueCategory
  description : String
  severity : String := "medium"
  context : SDict := []
  actionable : Bool := true
deriving DecidableEq

/-- Embedding of the `ReviewNotes` model. -/
structure ReviewNotes where
  workflow_stage : String
  issues_found : List ReviewIssue := []
  successful_steps : List String := []
  recommendations : List String := []
  routing_context : SDict := []
deriving DecidableEq

/-- Embedding of the `ReviewFeedback` model. -/
structure ReviewFeedback where
  approved : Bool := true
  requires_human : Bool := false
  summary : String := ""
  issues : List String := []
  detailed_issues : List ReviewIssue := []
  review_notes : Option ReviewNotes := none
deriving DecidableEq

/-- Embedding of the `PluginDispatchResult` model. -/
structure PluginDispatchResult where
  plugin_name : String
  dispatched_count : Int
  failed : List String := []
  metadata : SDict := []
deriving DecidableEq

/-- Embedding of the `MemoryUpdate` model. -/
structure MemoryUpdate where
  summary : String
  annotations : SDict := []
  tokens_used : Int := 0
deriving DecidableEq

/-- Embedding of the `AgentEvent` model. -/
structure AgentEvent where
  type : String
  message : String
  data : SDict := []
deriving DecidableEq

/-- Value held under the `review_action` state key: the graph writes the enum member,
but `_review_route` also defends against a raw string. -/
inductive RAValue where
  | enumv (a : ReviewAction)
  | strv (v : String)
deriving DecidableEq

/-- Embedding of the `AgentState` TypedDict (`total=False`: every key optional). -/
structure AgentState where
  request : Option OrchestrationRequest := none
  status : Option WorkflowStatus := none
  selected_workflow : Option String := none
  policy_decision : Option PolicyDecision := none
  working_notes : Option (List String) := none
  retrieved_context : Option SDict := none
  context_validation : Option SDict := none
  planned_actions : Option (List SDict) := none
  analysis_summary : Option String := none
  selected_plugin : Option String := none
  rendered_message : Option String := none
  plugin_result : Option PluginDispatchResult := none
  review_feedback : Option ReviewFeedback := none
  memory_updates : Option (List MemoryUpdate) := none
  requires_human_approval : Option Bool := none
  events : Option (List AgentEvent) := none
  error : Option String := none
  captured_policy_directives : Option (List PolicyDirective) := none
  retry_count : Option Int := none
  review_action : Option RAValue := none
  review_agent_message : Option String := none

/-- Embedding of `new_initial_state`. -/
def newInitialState (req : OrchestrationRequest) : AgentState :=
  { request := some req
    status := some WorkflowStatus.QUEUED
    working_notes := some []
    events := some []
    requires_human_approval := some false
    retry_count := some 0 }

/-- Python `int(state.get("retry_count") or 0)`. -/
def intOr0 : Option Int → Int
  | none => 0
  | some v => v

/-! ## Sentinel (`AgentSentinel.review`)

The method body is a straight-line sequence of checks, each appending to the
same local accumulators; it is embedded as one step function per check over an
accumulator record, composed in source order. -/

/-- Local accumulators of `AgentSentinel.review`. -/
structure SentinelAcc where
  notes : List String := []
  detailed_issues : List ReviewIssue := []
  successful_steps : List String := []
  recommendations : List String := []
  routing_context : SDict := []
  requires_human : Bool := false
deriving DecidableEq

/-- Start of `AgentSentinel.review`: `requires_human = bool(state.get("requires_human_approval"))`. -/
def sentinelInit (s : AgentState) : SentinelAcc :=
  { requires_human := s.requires_human_approval.getD false }

/-- Plugin-execution check of `AgentSentinel.review`. -/
def checkPlugin (s : AgentState) (acc : SentinelAcc) : SentinelAcc :=
  match s.plugin_result with
  | none => acc
  | some pr =>
      if !pr.failed.isEmpty then
        { acc with
          requires_human := true
          notes := acc.notes ++ ["One or more plugin deliveries failed"]
          detailed_issues := acc.detailed_issues ++
            [{ category := ReviewIssueCategory.PLUGIN
               description := "Plugin delivery failed for " ++
                 toString pr.failed.length ++ " recipient(s)"
               severity := "high"
               context := [("plugin_name", JVal.s pr.plugin_name),
                 ("failed_count", JVal.i pr.failed.length),
                 ("failed_recipients", JVal.ls pr.failed)]
               actionable := true }]
          recommendations := acc.recommendations ++
            ["Consider retrying with different delivery channel"]
          routing_context := jSet (jSet acc.routing_context
            "failed_plugin" (JVal.s pr.plugin_name))
            "failed_recipients" (JVal.ls pr.failed) }
      else
        { acc with successful_steps := acc.successful_steps ++
            ["Plugin " ++ pr.plugin_name ++ " executed successfully"] }

/-- Reflection-summary check of `AgentSentinel.review`. -/
def checkAnalysis (s : AgentState) (acc : SentinelAcc) : SentinelAcc :=
  if strTruthy s.analysis_summary then
    { acc with
      notes := acc.notes ++ ["Reflection summary captured"]
      successful_steps := acc.successful_steps ++ ["Agent reflection completed"] }
  else acc

/-- Planning check of `AgentSentinel.review`. -/
def checkPlanning (s : AgentState) (acc : SentinelAcc) : SentinelAcc :=
  if (s.planned_actions.getD []).isEmpty then
    { acc with
      detailed_issues := acc.detailed_issues ++
        [{ category := ReviewIssueCategory.PLANNING
           description := "No actions were planned for execution"
           severity := "medium"
           context := [("workflow", JVal.s (s.selected_workflow.getD "unknown"))]
           actionable := true }]
      recommendations := acc.recommendations ++
        ["Review workflow selection and planning logic"]
      routing_context := jSet acc.routing_context "empty_plan" (JVal.b true) }
  else acc

/-- JVal of an optional string (Python `None` becomes JSON null). -/
def jOfOptStr : Option String → JVal
  | none => JVal.null
  | some v => JVal.s v

/-- Policy-decision check of `AgentSentinel.review`. -/
def checkPolicy (s : AgentState) (acc : SentinelAcc) : SentinelAcc :=
  match s.policy_decision with
  | none => acc
  | some pd =>
      if pd.requires_human then
        { acc with
          requires_human := true
          notes := acc.notes ++ ["Policy requested human approval"]
          detailed_issues := acc.detailed_issues ++
            [{ category := ReviewIssueCategory.POLICY
               description := "Policy requires human approval: " ++ pd.reason
               severity := "high"
               context := [("policy_reason", JVal.s pd.reason),
                 ("policy_version", jOfOptStr pd.policy_version),
                 ("tags", JVal.ls pd.tags)]
               actionable := false }]
          routing_context := jSet (jSet acc.routing_context
            "policy_blocked" (JVal.b true)) "policy_reason" (JVal.s pd.reason) }
      else if !pd.allowed then
        { acc with
          requires_human := true
          detailed_issues := acc.detailed_issues ++
            [{ category := ReviewIssueCategory.POLICY
               description := "Policy check failed: " ++ pd.reason
               severity := "critical"
               context := [("policy_reason", JVal.s pd.reason)]
               actionable := false }]
        }
      else
        { acc with successful_steps := acc.successful_steps ++ ["Policy validation passed"] }

/-- Context-retrieval check of `AgentSentinel.review`. -/
def checkContext (s : AgentState) (acc : SentinelAcc) : SentinelAcc :=
  match s.retrieved_context with
  | none => acc
  | some rc =>
      if rc.isEmpty then acc
      else
        if (jGetLs rc "memory_snippets").length = 0 then
          { acc with
            detailed_issues := acc.detailed_issues ++
              [{ category := ReviewIssueCategory.CONTEXT
                 description := "No relevant context retrieved from memory"
                 severity := "low"
                 context := [("memory_provider", JVal.s "unknown")]
                 actionable := true }]
            recommendations := acc.recommendations ++
              ["Consider enriching memory with more relevant information"]
            routing_context := jSet acc.routing_context "low_context" (JVal.b true) }
        else
          { acc with successful_steps := acc.successful_steps ++
              ["Retrieved " ++ toString (jGetLs rc "memory_snippets").length ++
                " relevant memory snippets"] }

/-- Context-validation check of `AgentSentinel.review`. -/
def checkValidation (s : AgentState) (acc : SentinelAcc) : SentinelAcc :=
  if dictTruthy s.context_validation then
    if containsSub (lowerChars (jGetStr (s.context_validation.getD []) "summary").toList)
         ("insufficient".toList) ||
       containsSub (lowerChars (jGetStr (s.context_validation.getD []) "summary").toList)
         ("irrelevant".toList) then
      { acc with
        detailed_issues := acc.detailed_issues ++
          [{ category := ReviewIssueCategory.VALIDATION
             description := "Context validation indicates insufficient or irrelevant information"
             severity := "medium"
             context := [("validation", JVal.s (jGetStr (s.context_validation.getD []) "summary"))]
             actionable := true }]
        recommendations := acc.recommendations ++ ["Refine context retrieval strategy"] }
    else acc
  else acc

/-- Workflow-selection check of `AgentSentinel.review`. -/
def checkWorkflow (s : AgentState) (acc : SentinelAcc) : SentinelAcc :=
  if strTruthy s.selected_workflow then
    { acc with
      successful_steps := acc.successful_steps ++
        ["Workflow '" ++ s.selected_workflow.getD "" ++ "' selected"]
      routing_context := jSet acc.routing_context "workflow"
        (JVal.s (s.selected_workflow.getD "")) }
  else acc

/-- Error check of `AgentSentinel.review`. -/
def checkError (s : AgentState) (acc : SentinelAcc) : SentinelAcc :=
  if strTruthy s.error then
    { acc with
      requires_human := true
      detailed_issues := acc.detailed_issues ++
        [{ category := ReviewIssueCategory.EXECUTION
           description := "Execution error: " ++ s.error.getD ""
           severity := "critical"
           context := [("error", JVal.s (s.error.getD ""))]
           actionable := true }]
      routing_context := jSet acc.routing_context "execution_error"
        (JVal.s (s.error.getD "")) }
  else acc

/-- Composition of the checks of `AgentSentinel.review`, in source order. -/
def sentinelAcc (s : AgentState) : SentinelAcc :=
  checkError s (checkWorkflow s (checkValidation s (checkContext s
    (checkPolicy s (checkPlanning s (checkAnalysis s (checkPlugin s (sentinelInit s))))))))

/-- Severity test used by the summary generation (`severity in ["high", "critical"]`). -/
def isHighOrCritical (i : ReviewIssue) : Bool :=
  i.severity == "high" || i.severity == "critical"

/-- Summary generation of `AgentSentinel.review`: the rendered message (or a default)
is overwritten with a generic count string once any high/critical issue exists. -/
def sentinelSummary (s : AgentState) (issues : List ReviewIssue) : String :=
  let base := if strTruthy s.rendered_message then s.rendered_message.getD ""
              else "Workflow completed"
  if !issues.isEmpty then
    let hc := (issues.filter isHighOrCritical).length
    if hc > 0 then "Workflow completed with " ++ toString hc ++ " critical issue(s)"
    else base
  else base

/-- Embedding of `AgentSentinel.review`: assemble the feedback from the accumulated
checks; `review_notes` is only populated when some issue or routing-context key exists. -/
def sentinelReview (s : AgentState) : ReviewFeedback :=
  let acc := sentinelAcc s
  let summary := sentinelSummary s acc.detailed_issues
  let reviewNotes : Option ReviewNotes :=
    if !acc.detailed_issues.isEmpty || !acc.routing_context.isEmpty then
      some { workflow_stage := statusPyStr s.status
             issues_found := acc.detailed_issues
             successful_steps := acc.successful_steps
             recommendations := acc.recommendations
             routing_context := acc.routing_context }
    else none
  { approved := !acc.requires_human
    requires_human := acc.requires_human
    summary := summary
    issues := acc.notes
    detailed_issues := acc.detailed_issues
    review_notes := reviewNotes }

/-! ## Review agent (`ReviewAgent`) -/

/-- Value of `settings.review_max_retries` (`Field(default=1)` in `config/settings.py`). -/
def defaultReviewMaxRetries : Int := 1

/-- Embedding of `ReviewAgent.__init__`: an explicit argument overrides the settings
value, and the result is clamped to be non-negative. -/
def reviewAgentMaxRetries (arg : Option Int) (settingsReviewMaxRetries : Int) : Int :=
  max 0 (arg.getD settingsReviewMaxRetries)

/-- Embedding of `ReviewAgent.evaluate`: decide RETRY versus COMPLETE together with
the emitted message. -/
def evaluate (maxRetries : Int) (s : AgentState) : ReviewAction × String :=
  let retryCount := intOr0 s.retry_count
  match s.review_feedback with
  | none =>
      if retryCount < maxRetries then
        (ReviewAction.RETRY, "Review agent missing feedback; retrying workflow")
      else
        (ReviewAction.COMPLETE, "Review agent missing feedback; escalating for review")
  | some fb =>
      let nonActionable := fb.detailed_issues.filter (fun i => !i.actionable)
      let criticalNonActionable := nonActionable.filter (fun i => i.severity == "critical")
      if !fb.detailed_issues.isEmpty &&
         (!nonActionable.isEmpty && !fb.approved) &&
         !criticalNonActionable.isEmpty then
        (ReviewAction.COMPLETE, "Critical non-actionable issues detected: " ++
          String.intercalate "; " (criticalNonActionable.map (fun i => i.description)))
      else if !fb.approved then
        let issues := if fb.issues.isEmpty then "undisclosed issues"
                      else String.intercalate ", " fb.issues
        let contextMsg :=
          match fb.review_notes with
          | some rn =>
              if !rn.recommendations.isEmpty then
                " Recommendations: " ++ String.intercalate "; " (rn.recommendations.take 2)
              else ""
          | none => ""
        if retryCount < maxRetries then
          (ReviewAction.RETRY,
            "Review agent detected issues (" ++ issues ++ "); retrying workflow" ++ contextMsg)
        else
          (ReviewAction.COMPLETE,
            "Review agent detected issues (" ++ issues ++ ") after retries; escalating" ++ contextMsg)
      else
        (ReviewAction.COMPLETE,
          if fb.summary.isEmpty then "Review agent confirms workflow completion" else fb.summary)

/-! ## Graph nodes (`graph.py`) -/

/-- Embedding of `_review_route`: an enum member is returned as-is, a string is parsed
by value (`ReviewAction(action)`) with `ValueError` falling back to COMPLETE, and
anything else (including a missing key) yields COMPLETE. -/
def review_route (s : AgentState) : ReviewAction :=
  match s.review_action with
  | some (RAValue.enumv a) => a
  | some (RAValue.strv v) =>
      if v == "retry" then ReviewAction.RETRY
      else if v == "complete" then ReviewAction.COMPLETE
      else ReviewAction.COMPLETE
  | none => ReviewAction.COMPLETE

/-- Conditional-edge target map attached to the `review_agent` node in `build_langgraph`. -/
def reviewEdgeTarget (a : ReviewAction) : String :=
  match a with
  | ReviewAction.RETRY => "route_request"
  | ReviewAction.COMPLETE => "update_memory"

/-- Embedding of `run_review_agent`: evaluate the decision, append the message to the
working notes, and either perform the retry transition (increment the counter, reset
the stage-scoped fields, route back) or keep the state for completion; in both cases
exactly one review event is appended. -/
def run_review_agent (maxRetries : Int) (s : AgentState) : AgentState :=
  let res := evaluate maxRetries s
  let action := res.1
  let message := res.2
  let notes := (s.working_notes.getD []) ++ (if message.isEmpty then [] else [message])
  let retryCount := intOr0 s.retry_count
  match action with
  | ReviewAction.RETRY =>
      let ev : AgentEvent :=
        { type := "review.agent"
          message := if message.isEmpty then "Review agent processed workflow" else message
          data := [("action", JVal.s (reviewActionValue action)),
                   ("retry_count", JVal.i (retryCount + 1))] }
      { s with
        review_agent_message := some message
        review_action := some (RAValue.enumv action)
        working_notes := some notes
        retry_count := some (retryCount + 1)
        requires_human_approval := some false
        status := some WorkflowStatus.ROUTING
        selected_plugin := none
        rendered_message := none
        plugin_result := none
        review_feedback := none
        policy_decision := none
        analysis_summary := none
        planned_actions := some []
        retrieved_context := some []
        context_validation := some []
        events := some ((s.events.getD []) ++ [ev]) }
  | ReviewAction.COMPLETE =>
      let ev : AgentEvent :=
        { type := "review.agent"
          message := if message.isEmpty then "Review agent processed workflow" else message
          data := [("action", JVal.s (reviewActionValue action)),
                   ("retry_count", JVal.i retryCount)] }
      { s with
        review_agent_message := some message
        review_action := some (RAValue.enumv action)
        working_notes := some notes
        retry_count := some retryCount
        status := some WorkflowStatus.REVIEWING
        events := some ((s.events.getD []) ++ [ev]) }

/-- Embedding of `review_outcome`: run the sentinel, store its feedback, OR its
`requires_human` into the approval flag, and append note and event. -/
def review_outcome (s : AgentState) : AgentState :=
  let fb := sentinelReview s
  { s with
    status := some WorkflowStatus.REVIEWING
    review_feedback := some fb
    requires_human_approval := some (fb.requires_human || s.requires_human_approval.getD false)
    working_notes := some ((s.working_notes.getD []) ++ ["Sentinel review complete"])
    events := some ((s.events.getD []) ++
      [{ type := "agent.review"
         message := "Agent sentinel produced final decision"
         data := [("approved", JVal.b fb.approved),
                  ("requires_human", JVal.b fb.requires_human),
                  ("issues", JVal.ls fb.issues)] }]) }

/-- Embedding of `policy_check`: capture directives, evaluate the (updated) policy
store, and raise `PermissionError` — modelled as `Except.error` — when the decision
disallows the request; otherwise record decision, notes and event.  The LLM policy
analysis is an external collaborator passed in as `analysis`. -/
def policy_check (st : PolicyStore) (analysis : Option String) (s : AgentState) :
    Except String (AgentState × PolicyStore) :=
  match s.request with
  | none => Except.error "Agent state missing 'request'"
  | some req =>
      let capres := capture st req
      let captured := capres.1
      let st2 := capres.2
      let decision := policyEvaluate st2 req
      let notes := (s.working_notes.getD []) ++
        ["Policy decision: " ++ decision.reason] ++
        (if captured.isEmpty then []
         else ["Captured " ++ toString captured.length ++ " policy directive(s)"]) ++
        (match analysis with
         | some a => if a.isEmpty then [] else ["Policy analysis: " ++ a]
         | none => [])
      let ev : AgentEvent :=
        { type := "policy.review"
          message := "Policy decision: " ++ decision.reason
          data := [("allowed", JVal.b decision.allowed),
                   ("requires_human", JVal.b decision.requires_human),
                   ("policy_version", jOfOptStr decision.policy_version),
                   ("captured_directives", JVal.drecs captured),
                   ("llm_analysis", jOfOptStr analysis)] }
      if !decision.allowed then Except.error decision.reason
      else Except.ok
        ({ s with
           status := some WorkflowStatus.POLICY_CHECK
           policy_decision := some decision
           requires_human_approval :=
             some (decision.requires_human || s.requires_human_approval.getD false)
           working_notes := some notes
           captured_policy_directives := some captured
           events := some ((s.events.getD []) ++ [ev]) }, st2)

/-- Node of the engine driver: a state transformer that may abort the run by raising. -/
abbrev GraphNode := AgentState → Except String AgentState

/-- Sequential engine driver over a list of nodes: a raised error aborts the run
before any later node executes (LangGraph propagates node exceptions). -/
def runSeq (nodes : List GraphNode) (s : AgentState) : Except String AgentState :=
  match nodes with
  | [] => Except.ok s
  | n :: rest =>
      match n s with
      | Except.error e => Except.error e
      | Except.ok s2 => runSeq rest s2

/-- The `policy_check` node as a driver node (the store update is threaded separately
in the source via the module-level singleton). -/
def policyCheckNode (st : PolicyStore) (analysis : Option String) : GraphNode :=
  fun s => (policy_check st analysis s).map Prod.fst

/-! ## Shared helper lemmas -/

/-- List with a member satisfying a Bool predicate has a non-empty filter. -/
theorem filter_ne_nil_iff_exists {α : Type} (p : α → Bool) (l : List α) :
    (l.filter p).isEmpty = false ↔ ∃ a ∈ l, p a := by
  simp [List.isEmpty_iff, List.filter_eq_nil_iff]

/-- Retry count written by `run_review_agent`: incremented exactly on RETRY. -/
theorem run_review_agent_retry_count (maxRetries : Int) (s : AgentState) :
    (run_review_agent maxRetries s).retry_count =
      some (if (evaluate maxRetries s).1 = ReviewAction.RETRY
            then intOr0 s.retry_count + 1 else intOr0 s.retry_count) := by
  unfold run_review_agent
  rcases h : evaluate maxRetries s with ⟨a, m⟩
  cases a <;> simp [h]

/-- The review agent only ever decides RETRY while the retry budget remains. -/
theorem evaluate_retry_needs_budget (maxRetries : Int) (s : AgentState)
    (h : (evaluate maxRetries s).1 = ReviewAction.RETRY) :
    intOr0 s.retry_count < maxRetries := by
  unfold evaluate at h
  rcases hfb : s.review_feedback with _ | fb <;> rw [hfb] at h
  · by_cases hlt : intOr0 s.retry_count < maxRetries
    · exact hlt
    · simp [hlt] at h
  · by_cases hg : (!fb.detailed_issues.isEmpty &&
        (!(fb.detailed_issues.filter (fun i => !i.actionable)).isEmpty && !fb.approved) &&
        !((fb.detailed_issues.filter (fun i => !i.actionable)).filter
          (fun i => i.severity == "critical")).isEmpty) = true
    · simp only [hg, if_true] at h
      exact absurd h (by simp)
    · rw [Bool.not_eq_true] at hg
      simp only [hg] at h
      by_cases happ : fb.approved
      · simp [happ] at h
      · by_cases hlt : intOr0 s.retry_count < maxRetries
        · exact hlt
        · simp [happ, hlt] at h

/-! ## Claim C10 -/

/-- C10: after the `review_agent` node, the conditional edge takes the RETRY branch
back to `route_request` exactly when `review_action` is the RETRY enum member or the
string `"retry"`; a missing `review_action`, or a string that is not a valid
`ReviewAction` value, routes to `update_memory` (COMPLETE), so a malformed or missing
review action can never trigger a retry. -/
theorem C10_review_route_retry (s : AgentState) :
    ((review_route s = ReviewAction.RETRY ∧
        reviewEdgeTarget (review_route s) = "route_request") ↔
      (s.review_action = some (RAValue.enumv ReviewAction.RETRY) ∨
       s.review_action = some (RAValue.strv "retry"))) ∧
    ((s.review_action = none ∨
      ∃ v, s.review_action = some (RAValue.strv v) ∧ v ≠ "retry" ∧ v ≠ "complete") →
      review_route s = ReviewAction.COMPLETE ∧
      reviewEdgeTarget (review_route s) = "update_memory") := by
  constructor
  · constructor
    · rintro ⟨hr, _⟩
      rcases ha : s.review_action with _ | ⟨a | v⟩
      · simp [review_route, ha] at hr
      · cases a
        · exact Or.inl rfl
        · simp [review_route, ha] at hr
      · refine Or.inr ?_
        by_cases hv : v == "retry"
        · simp [ha, beq_iff_eq.mp hv]
        · simp only [review_route, ha, hv] at hr
          by_cases hv2 : v == "complete" <;> simp [hv2] at hr
    · rintro (ha | ha) <;> simp [review_route, reviewEdgeTarget, ha]
  · rintro (ha | ⟨v, ha, hv1, hv2⟩)
    · simp [review_route, reviewEdgeTarget, ha]
    · simp [review_route, reviewEdgeTarget, ha, hv1, hv2]

/-- Witness for C10 at concrete inputs: an invalid string routes to `update_memory`. -/
theorem C10_review_route_retry_witness :
    review_route { review_action := some (RAValue.strv "bogus") } = ReviewAction.COMPLETE ∧
    reviewEdgeTarget (review_route { review_action := some (RAValue.strv "bogus") }) =
      "update_memory" :=
  (C10_review_route_retry { review_action := some (RAValue.strv "bogus") }).2
    (Or.inr ⟨"bogus", rfl, by decide, by decide⟩)

/-- Non-emptiness of a list from membership, in `isEmpty` form. -/
theorem isEmpty_false_of_mem {α : Type} {l : List α} {x : α} (h : x ∈ l) :
    l.isEmpty = false := by
  cases l
  · cases h
  · rfl

/-- Bridge between the critical-non-actionable filter of `ReviewAgent.evaluate` and its
propositional form. -/
theorem critNA_isEmpty_false_iff (fb : ReviewFeedback) :
    ((fb.detailed_issues.filter (fun i => !i.actionable)).filter
        (fun i => i.severity == "critical")).isEmpty = false ↔
      ∃ i ∈ fb.detailed_issues, i.actionable = false ∧ i.severity = "critical" := by
  rw [filter_ne_nil_iff_exists]
  constructor
  · rintro ⟨i, hi, hp⟩
    exact ⟨i, (List.mem_filter.mp hi).1, by simpa using (List.mem_filter.mp hi).2,
      by simpa using hp⟩
  · rintro ⟨i, hi, hact, hsev⟩
    exact ⟨i, List.mem_filter.mpr ⟨hi, by simp [hact]⟩, by simp [hsev]⟩

/-- The short-circuit guard of `ReviewAgent.evaluate` reduces to its last two conjuncts:
a non-empty critical non-actionable filter forces the two leading non-emptiness tests. -/
theorem evaluate_guard_eq (fb : ReviewFeedback) :
    (!fb.detailed_issues.isEmpty &&
      (!(fb.detailed_issues.filter (fun i => !i.actionable)).isEmpty && !fb.approved) &&
      !((fb.detailed_issues.filter (fun i => !i.actionable)).filter
        (fun i => i.severity == "critical")).isEmpty) =
    (!fb.approved &&
      !((fb.detailed_issues.filter (fun i => !i.actionable)).filter
        (fun i => i.severity == "critical")).isEmpty) := by
  cases hD : ((fb.detailed_issues.filter (fun i => !i.actionable)).filter
      (fun i => i.severity == "critical")).isEmpty
  · rcases (filter_ne_nil_iff_exists _ _).mp hD with ⟨i, hiF, _⟩
    have h2 : (fb.detailed_issues.filter (fun i => !i.actionable)).isEmpty = false :=
      isEmpty_false_of_mem hiF
    have h1 : fb.detailed_issues.isEmpty = false :=
      isEmpty_false_of_mem (List.mem_filter.mp hiF).1
    simp [h1, h2, hD]
  · simp [hD]

/-- Action component of `ReviewAgent.evaluate` when feedback is missing. -/
theorem evaluate_fst_none (maxRetries : Int) (s : AgentState)
    (hfb : s.review_feedback = none) :
    (evaluate maxRetries s).1 =
      (if intOr0 s.retry_count < maxRetries then ReviewAction.RETRY
       else ReviewAction.COMPLETE) := by
  simp only [evaluate, hfb]
  split <;> rfl

/-- Action component of `ReviewAgent.evaluate` when feedback is present. -/
theorem evaluate_fst_some (maxRetries : Int) (s : AgentState) (fb : ReviewFeedback)
    (hfb : s.review_feedback = some fb) :
    (evaluate maxRetries s).1 =
      (if (!fb.approved &&
           !((fb.detailed_issues.filter (fun i => !i.actionable)).filter
             (fun i => i.severity == "critical")).isEmpty) then
         ReviewAction.COMPLETE
       else if !fb.approved then
         (if intOr0 s.retry_count < maxRetries then ReviewAction.RETRY
          else ReviewAction.COMPLETE)
       else ReviewAction.COMPLETE) := by
  simp only [evaluate, hfb, evaluate_guard_eq]
  split
  · rfl
  · split
    · split <;> rfl
    · rfl

/-! ## Claim C1 -/

/-- State used by the C1 counterexample: approved feedback with empty summary. -/
def c1CexState : AgentState :=
  { review_feedback := some { approved := true, summary := "" }
    retry_count := some 0 }

/-- C1 (counterexample): the claim states that for `approved = true` the review agent
returns COMPLETE with the feedback's summary as the message; with an empty summary the
code substitutes a default confirmation message instead, so the message is not the
summary. -/
theorem C1_counterexample :
    (evaluate 1 c1CexState).1 = ReviewAction.COMPLETE ∧
    (evaluate 1 c1CexState).2 ≠
      ({ approved := true, summary := "" } : ReviewFeedback).summary := by
  decide

/-- C1 (amended): `ReviewAgent.evaluate` returns RETRY exactly when
`retry_count < max_retries` and either feedback is absent or the feedback is
unapproved with no detailed issue that is both non-actionable and critical; it
returns COMPLETE immediately, regardless of retry budget, when feedback is present,
unapproved, and some detailed issue is non-actionable and critical; and when
`approved = true` it returns COMPLETE with the feedback's summary as the message
whenever the summary is non-empty (a default confirmation when it is empty). -/
theorem C1_evaluate_decision (maxRetries : Int) (s : AgentState) :
    ((evaluate maxRetries s).1 = ReviewAction.RETRY ↔
      (intOr0 s.retry_count < maxRetries ∧
        (s.review_feedback = none ∨
         ∃ fb, s.review_feedback = some fb ∧ fb.approved = false ∧
           ∀ i ∈ fb.detailed_issues, ¬(i.actionable = false ∧ i.severity = "critical")))) ∧
    (∀ fb, s.review_feedback = some fb → fb.approved = false →
      (∃ i ∈ fb.detailed_issues, i.actionable = false ∧ i.severity = "critical") →
      (evaluate maxRetries s).1 = ReviewAction.COMPLETE) ∧
    (∀ fb, s.review_feedback = some fb → fb.approved = true →
      evaluate maxRetries s = (ReviewAction.COMPLETE,
        if fb.summary.isEmpty then "Review agent confirms workflow completion"
        else fb.summary)) := by
  refine ⟨?_, ?_, ?_⟩
  · rcases hfb : s.review_feedback with _ | fb
    · rw [evaluate_fst_none maxRetries s hfb]
      by_cases hlt : intOr0 s.retry_count < maxRetries
      · rw [if_pos hlt]
        exact ⟨fun _ => ⟨hlt, Or.inl rfl⟩, fun _ => rfl⟩
      · rw [if_neg hlt]
        exact ⟨fun h => by simp at h, fun ⟨hlt2, _⟩ => absurd hlt2 hlt⟩
    · rw [evaluate_fst_some maxRetries s fb hfb]
      by_cases happ : fb.approved
      · have hg : (!fb.approved &&
            !((fb.detailed_issues.filter (fun i => !i.actionable)).filter
              (fun i => i.severity == "critical")).isEmpty) = false := by
          rw [happ]
          rfl
        rw [hg]
        simp only [Bool.false_eq_true, if_false, happ, Bool.not_true]
        constructor
        · intro h
          simp at h
        · rintro ⟨hlt, h | ⟨fb2, hfb2, happ2, _⟩⟩
          · exact absurd h (by simp)
          · injection hfb2 with hfb2
            subst hfb2
            rw [happ] at happ2
            exact absurd happ2 (by simp)
      · rw [Bool.not_eq_true] at happ
        cases hD : ((fb.detailed_issues.filter (fun i => !i.actionable)).filter
            (fun i => i.severity == "critical")).isEmpty
        · rw [if_pos (show (!fb.approved && !false) = true by rw [happ]; rfl)]
          rcases (critNA_isEmpty_false_iff fb).mp hD with ⟨i, hi, hact, hsev⟩
          constructor
          · intro h
            simp at h
          · rintro ⟨hlt, h | ⟨fb2, hfb2, happ2, hall⟩⟩
            · exact absurd h (by simp)
            · injection hfb2 with hfb2
              subst hfb2
              exact absurd ⟨hact, hsev⟩ (hall i hi)
        · have hall : ∀ i ∈ fb.detailed_issues,
              ¬(i.actionable = false ∧ i.severity = "critical") := by
            intro i hi hc
            have hne := (critNA_isEmpty_false_iff fb).mpr ⟨i, hi, hc.1, hc.2⟩
            rw [hD] at hne
            exact absurd hne (by simp)
          rw [if_neg (show ¬((!fb.approved && !true) = true) by simp)]
          rw [if_pos (show (!fb.approved) = true by rw [happ]; rfl)]
          by_cases hlt : intOr0 s.retry_count < maxRetries
          · rw [if_pos hlt]
            exact ⟨fun _ => ⟨hlt, Or.inr ⟨fb, rfl, happ, hall⟩⟩, fun _ => rfl⟩
          · rw [if_neg hlt]
            constructor
            · intro h
              simp at h
            · rintro ⟨hlt2, _⟩
              exact absurd hlt2 hlt
  · intro fb hfb happ hex
    rw [evaluate_fst_some maxRetries s fb hfb]
    have hD : ((fb.detailed_issues.filter (fun i => !i.actionable)).filter
        (fun i => i.severity == "critical")).isEmpty = false :=
      (critNA_isEmpty_false_iff fb).mpr hex
    have hg : (!fb.approved &&
        !((fb.detailed_issues.filter (fun i => !i.actionable)).filter
          (fun i => i.severity == "critical")).isEmpty) = true := by
      rw [happ, hD]
      rfl
    rw [hg]
    rfl
  · intro fb hfb happ
    unfold evaluate
    rw [hfb]
    simp [evaluate_guard_eq, happ]

/-- State used by the C1 witness: approved feedback with a non-empty summary. -/
def c1WitnessState : AgentState :=
  { review_feedback := some { approved := true, summary := "All done" }
    retry_count := some 0 }

/-- Witness for C1 at a concrete approved feedback with non-empty summary. -/
theorem C1_evaluate_decision_witness :
    evaluate 1 c1WitnessState = (ReviewAction.COMPLETE, "All done") :=
  ((C1_evaluate_decision 1 c1WitnessState).2.2
      { approved := true, summary := "All done" } rfl rfl).trans (by decide)

/-! ## Claim C2 -/

/-- Reading an explicit retry counter back out of its state field. -/
theorem intOr0_some (v : Int) : intOr0 (some v) = v := rfl

/-- C2: each RETRY decision of the `review_agent` node increments `retry_count` by
exactly 1 starting from 0, so after N consecutive RETRY decisions (with the counter
carried between review passes) `retry_count` equals N and N cannot exceed
`max_retries`; RETRY is only ever decided while `retry_count < max_retries`, so the
counter never exceeds `max_retries` (an inclusive upper bound); and the configured
`max_retries` defaults to 1. -/
theorem C2_retry_counter (maxRetries : Int) (N : Nat) (f : Nat → AgentState)
    (h0 : intOr0 (f 0).retry_count = 0)
    (hstep : ∀ i, i < N → (evaluate maxRetries (f i)).1 = ReviewAction.RETRY ∧
      (f (i + 1)).retry_count = (run_review_agent maxRetries (f i)).retry_count) :
    (∀ i, i ≤ N → intOr0 (f i).retry_count = (i : Int)) ∧
    (N ≠ 0 → (N : Int) ≤ maxRetries) ∧
    (∀ s : AgentState, (evaluate maxRetries s).1 = ReviewAction.RETRY →
      intOr0 s.retry_count < maxRetries) ∧
    (∀ s : AgentState, intOr0 s.retry_count ≤ maxRetries →
      intOr0 (run_review_agent maxRetries s).retry_count ≤ maxRetries) ∧
    reviewAgentMaxRetries none defaultReviewMaxRetries = 1 := by
  have hcount : ∀ i, i ≤ N → intOr0 (f i).retry_count = (i : Int) := by
    intro i
    induction i with
    | zero => intro _; exact h0
    | succ k ih =>
        intro hk
        have hklt : k < N := Nat.lt_of_succ_le hk
        obtain ⟨hR, heq⟩ := hstep k hklt
        have hrc := run_review_agent_retry_count maxRetries (f k)
        rw [hR, if_pos rfl] at hrc
        have hkv : intOr0 (f k).retry_count = (k : Int) := ih (Nat.le_of_lt hklt)
        rw [heq, hrc, hkv, intOr0_some]
        push_cast
        ring
  refine ⟨hcount, ?_, evaluate_retry_needs_budget maxRetries, ?_, by decide⟩
  · intro hN
    obtain ⟨k, hk⟩ : ∃ k, N = k + 1 :=
      ⟨N - 1, (Nat.succ_pred_eq_of_pos (Nat.pos_of_ne_zero hN)).symm⟩
    subst hk
    obtain ⟨hR, _⟩ := hstep k (Nat.lt_succ_self k)
    have hlt := evaluate_retry_needs_budget maxRetries (f k) hR
    have hcnt := hcount k (Nat.le_succ k)
    rw [hcnt] at hlt
    push_cast
    omega
  · intro s hs
    have hrc := run_review_agent_retry_count maxRetries s
    by_cases hR : (evaluate maxRetries s).1 = ReviewAction.RETRY
    · rw [hR, if_pos rfl] at hrc
      rw [hrc, intOr0_some]
      have := evaluate_retry_needs_budget maxRetries s hR
      omega
    · rw [if_neg hR] at hrc
      rw [hrc, intOr0_some]
      exact hs

/-- Review-pass state sequence used by the C2 witness: one RETRY step from count 0. -/
def c2Seq : Nat → AgentState := fun i =>
  if i = 0 then { review_feedback := none, retry_count := some 0 }
  else { retry_count := some 1 }

/-- Witness for C2 on a concrete one-retry run with the default budget. -/
theorem C2_retry_counter_witness :
    intOr0 (c2Seq 1).retry_count = (1 : Int) ∧ (1 : Int) ≤ 1 := by
  have h := C2_retry_counter 1 1 c2Seq (by decide) (by
    intro i hi
    have hi0 : i = 0 := by omega
    subst hi0
    exact ⟨by decide, by decide⟩)
  exact ⟨by simpa using h.1 1 le_rfl, h.2.1 one_ne_zero⟩

/-! ## Claim C3 -/

/-- Full state produced by `run_review_agent` on a RETRY decision. -/
theorem run_review_agent_retry_state (maxRetries : Int) (s : AgentState)
    (h : (evaluate maxRetries s).1 = ReviewAction.RETRY) :
    run_review_agent maxRetries s =
      { s with
        review_agent_message := some (evaluate maxRetries s).2
        review_action := some (RAValue.enumv ReviewAction.RETRY)
        working_notes := some ((s.working_notes.getD []) ++
          (if (evaluate maxRetries s).2.isEmpty then [] else [(evaluate maxRetries s).2]))
        retry_count := some (intOr0 s.retry_count + 1)
        requires_human_approval := some false
        status := some WorkflowStatus.ROUTING
        selected_plugin := none
        rendered_message := none
        plugin_result := none
        review_feedback := none
        policy_decision := none
        analysis_summary := none
        planned_actions := some []
        retrieved_context := some []
        context_validation := some []
        events := some ((s.events.getD []) ++
          [{ type := "review.agent"
             message := if (evaluate maxRetries s).2.isEmpty then "Review agent processed workflow"
                        else (evaluate maxRetries s).2
             data := [("action", JVal.s "retry"),
                      ("retry_count", JVal.i (intOr0 s.retry_count + 1))] }]) } := by
  unfold run_review_agent
  rcases he : evaluate maxRetries s with ⟨a, m⟩
  rw [he] at h
  simp only at h
  subst h
  rfl

/-- C3: the RETRY update of `run_review_agent` increments `retry_count`, sets status
to ROUTING, resets `requires_human_approval` to false, clears `selected_plugin`,
`rendered_message`, `plugin_result`, `review_feedback`, `policy_decision` and
`analysis_summary`, resets `planned_actions`, `retrieved_context` and
`context_validation` to empty, preserves every previously recorded working note and
event (appending exactly one review event), and leaves the request unchanged. -/
theorem C3_retry_transition (maxRetries : Int) (s : AgentState)
    (h : (evaluate maxRetries s).1 = ReviewAction.RETRY) :
    (run_review_agent maxRetries s).retry_count = some (intOr0 s.retry_count + 1) ∧
    (run_review_agent maxRetries s).status = some WorkflowStatus.ROUTING ∧
    (run_review_agent maxRetries s).requires_human_approval = some false ∧
    (run_review_agent maxRetries s).selected_plugin = none ∧
    (run_review_agent maxRetries s).rendered_message = none ∧
    (run_review_agent maxRetries s).plugin_result = none ∧
    (run_review_agent maxRetries s).review_feedback = none ∧
    (run_review_agent maxRetries s).policy_decision = none ∧
    (run_review_agent maxRetries s).analysis_summary = none ∧
    (run_review_agent maxRetries s).planned_actions = some [] ∧
    (run_review_agent maxRetries s).retrieved_context = some [] ∧
    (run_review_agent maxRetries s).context_validation = some [] ∧
    (∀ n ∈ s.working_notes.getD [], n ∈ (run_review_agent maxRetries s).working_notes.getD []) ∧
    (∀ e ∈ s.events.getD [], e ∈ (run_review_agent maxRetries s).events.getD []) ∧
    (∃ ev : AgentEvent, ev.type = "review.agent" ∧
      (run_review_agent maxRetries s).events = some (s.events.getD [] ++ [ev])) ∧
    (run_review_agent maxRetries s).request = s.request := by
  rw [run_review_agent_retry_state maxRetries s h]
  refine ⟨rfl, rfl, rfl, rfl, rfl, rfl, rfl, rfl, rfl, rfl, rfl, rfl, ?_, ?_, ?_, rfl⟩
  · intro n hn
    simp only [Option.getD_some]
    exact List.mem_append_left _ hn
  · intro e he
    simp only [Option.getD_some]
    exact List.mem_append_left _ he
  · exact ⟨_, rfl, rfl⟩

/-- State used by the C3 witness, carrying a prior note and a prior event. -/
def c3State : AgentState :=
  { review_feedback := none
    retry_count := some 0
    working_notes := some ["earlier note"]
    events := some [{ type := "router.decision", message := "routed" }] }

/-- Witness for C3 on a concrete retrying state with history to preserve. -/
theorem C3_retry_transition_witness :
    (run_review_agent 1 c3State).retry_count = some 1 ∧
    (run_review_agent 1 c3State).status = some WorkflowStatus.ROUTING ∧
    "earlier note" ∈ (run_review_agent 1 c3State).working_notes.getD [] := by
  obtain ⟨h1, h2, -, -, -, -, -, -, -, -, -, -, h13, -, -, -⟩ :=
    C3_retry_transition 1 c3State (by decide)
  exact ⟨by simpa using h1, h2, h13 "earlier note" (by decide)⟩

/-! ## Claim C8 -/

/-- C8: when the policy engine's evaluation (on the store updated by directive
capture, as `policy_check` runs it) returns `allowed = false`, the `policy_check`
node raises (`Except.error`), so the engine driver aborts the run before any later
node — in particular `review_outcome`, `review_agent` and the retry machinery —
executes, whatever the remaining node list is; policy denial is never retried. -/
theorem C8_policy_denial_aborts (st : PolicyStore) (analysis : Option String)
    (s : AgentState) (req : OrchestrationRequest) (rest : List GraphNode)
    (hreq : s.request = some req)
    (hden : (policyEvaluate (capture st req).2 req).allowed = false) :
    runSeq (policyCheckNode st analysis :: rest) s =
      Except.error (policyEvaluate (capture st req).2 req).reason := by
  have hpc : policy_check st analysis s =
      Except.error (policyEvaluate (capture st req).2 req).reason := by
    unfold policy_check
    rw [hreq]
    simp only [hden]
    rfl
  unfold runSeq policyCheckNode
  rw [hpc]
  rfl

/-- Store used by the C8 witness: one blocking directive for every tenant key. -/
def c8Store : PolicyStore := fun _ => [⟨DirectiveKind.never_do, "spam".toList⟩]

/-- State used by the C8 witness: a request whose flattened text matches the directive. -/
def c8State : AgentState :=
  { request := some { request_id := "r1".toList, intent := "send spam today".toList } }

/-- Witness for C8 on a concretely denied request. -/
theorem C8_policy_denial_aborts_witness :
    runSeq [policyCheckNode c8Store none] c8State =
      Except.error "Blocked by directive 'spam'" := by
  rw [C8_policy_denial_aborts c8Store none c8State
    { request_id := "r1".toList, intent := "send spam today".toList } [] rfl (by decide)]
  rfl

/-! ## Sentinel decomposition lemmas -/

/-- Reading a key just written by `jSet`. -/
theorem jGet_jSet_self (d : SDict) (k : String) (v : JVal) :
    jGet (jSet d k v) k = some v := by
  induction d with
  | nil => simp [jSet, jGet]
  | cons kv rest ih =>
      obtain ⟨k0, v0⟩ := kv
      by_cases hk : k0 = k <;> simp [jSet, jGet, hk, ih]

/-- Writing one key leaves every other key unchanged. -/
theorem jGet_jSet_ne (d : SDict) (k k2 : String) (v : JVal) (h : k2 ≠ k) :
    jGet (jSet d k2 v) k = jGet d k := by
  induction d with
  | nil => simp [jSet, jGet, h]
  | cons kv rest ih =>
      obtain ⟨k0, v0⟩ := kv
      by_cases hk : k0 = k2
      · subst hk
        simp [jSet, jGet, h]
      · by_cases hk2 : k0 = k <;> simp [jSet, jGet, hk, hk2, ih, Ne.symm h]

/-- Trigger of the plugin check: a present dispatch result with failed recipients. -/
def pluginFailed (s : AgentState) : Bool :=
  match s.plugin_result with
  | some pr => !pr.failed.isEmpty
  | none => false

/-- Trigger of the policy check: a present decision that needs a human or is disallowed. -/
def policyTrigger (s : AgentState) : Bool :=
  match s.policy_decision with
  | some pd => pd.requires_human || !pd.allowed
  | none => false

/-- Plugin check ORs its trigger into `requires_human`. -/
theorem checkPlugin_rh (s : AgentState) (acc : SentinelAcc) :
    (checkPlugin s acc).requires_human = (acc.requires_human || pluginFailed s) := by
  unfold checkPlugin pluginFailed
  rcases s.plugin_result with _ | pr
  · simp
  · by_cases hf : pr.failed.isEmpty <;> simp [hf]

/-- Analysis check leaves `requires_human` unchanged. -/
theorem checkAnalysis_rh (s : AgentState) (acc : SentinelAcc) :
    (checkAnalysis s acc).requires_human = acc.requires_human := by
  unfold checkAnalysis
  split <;> rfl

/-- Planning check leaves `requires_human` unchanged. -/
theorem checkPlanning_rh (s : AgentState) (acc : SentinelAcc) :
    (checkPlanning s acc).requires_human = acc.requires_human := by
  unfold checkPlanning
  split <;> rfl

/-- Policy check ORs its trigger into `requires_human`. -/
theorem checkPolicy_rh (s : AgentState) (acc : SentinelAcc) :
    (checkPolicy s acc).requires_human = (acc.requires_human || policyTrigger s) := by
  unfold checkPolicy policyTrigger
  rcases s.policy_decision with _ | pd
  · simp
  · by_cases hh : pd.requires_human
    · simp [hh]
    · by_cases ha : pd.allowed <;> simp [hh, ha]

/-- Context check leaves `requires_human` unchanged. -/
theorem checkContext_rh (s : AgentState) (acc : SentinelAcc) :
    (checkContext s acc).requires_human = acc.requires_human := by
  unfold checkContext
  rcases s.retrieved_context with _ | rc
  · rfl
  · by_cases he : rc.isEmpty
    · simp [he]
    · by_cases hn : (jGetLs rc "memory_snippets").length = 0 <;> simp [he, hn]

/-- Validation check leaves `requires_human` unchanged. -/
theorem checkValidation_rh (s : AgentState) (acc : SentinelAcc) :
    (checkValidation s acc).requires_human = acc.requires_human := by
  unfold checkValidation
  split
  · split <;> rfl
  · rfl

/-- Workflow check leaves `requires_human` unchanged. -/
theorem checkWorkflow_rh (s : AgentState) (acc : SentinelAcc) :
    (checkWorkflow s acc).requires_human = acc.requires_human := by
  unfold checkWorkflow
  split <;> rfl

/-- Error check ORs the error trigger into `requires_human`. -/
theorem checkError_rh (s : AgentState) (acc : SentinelAcc) :
    (checkError s acc).requires_human = (acc.requires_human || strTruthy s.error) := by
  unfold checkError
  by_cases he : strTruthy s.error <;> simp [he]

/-- Closed form of the sentinel's aggregated `requires_human` flag. -/
theorem sentinel_rh (s : AgentState) :
    (sentinelAcc s).requires_human =
      (s.requires_human_approval.getD false || pluginFailed s ||
        policyTrigger s || strTruthy s.error) := by
  unfold sentinelAcc
  rw [checkError_rh, checkWorkflow_rh, checkValidation_rh, checkContext_rh,
    checkPolicy_rh, checkPlanning_rh, checkAnalysis_rh, checkPlugin_rh]
  rfl

/-- Issue contribution of the plugin check. -/
theorem checkPlugin_issues (s : AgentState) (acc : SentinelAcc) :
    (checkPlugin s acc).detailed_issues =
      acc.detailed_issues ++ (checkPlugin s {}).detailed_issues := by
  unfold checkPlugin
  rcases s.plugin_result with _ | pr
  · simp
  · by_cases hf : pr.failed.isEmpty <;> simp [hf]

/-- The analysis check emits no issues. -/
theorem checkAnalysis_issues (s : AgentState) (acc : SentinelAcc) :
    (checkAnalysis s acc).detailed_issues = acc.detailed_issues := by
  unfold checkAnalysis
  split <;> rfl

/-- Issue contribution of the planning check. -/
theorem checkPlanning_issues (s : AgentState) (acc : SentinelAcc) :
    (checkPlanning s acc).detailed_issues =
      acc.detailed_issues ++ (checkPlanning s {}).detailed_issues := by
  unfold checkPlanning
  by_cases hp : (s.planned_actions.getD []).isEmpty <;> simp [hp]

/-- Issue contribution of the policy check. -/
theorem checkPolicy_issues (s : AgentState) (acc : SentinelAcc) :
    (checkPolicy s acc).detailed_issues =
      acc.detailed_issues ++ (checkPolicy s {}).detailed_issues := by
  unfold checkPolicy
  rcases s.policy_decision with _ | pd
  · simp
  · by_cases hh : pd.requires_human
    · simp [hh]
    · by_cases ha : pd.allowed <;> simp [hh, ha]

/-- Issue contribution of the context check. -/
theorem checkContext_issues (s : AgentState) (acc : SentinelAcc) :
    (checkContext s acc).detailed_issues =
      acc.detailed_issues ++ (checkContext s {}).detailed_issues := by
  unfold checkContext
  rcases s.retrieved_context with _ | rc
  · simp
  · by_cases he : rc.isEmpty
    · simp [he]
    · by_cases hn : (jGetLs rc "memory_snippets").length = 0 <;> simp [he, hn]

/-- Issue contribution of the validation check. -/
theorem checkValidation_issues (s : AgentState) (acc : SentinelAcc) :
    (checkValidation s acc).detailed_issues =
      acc.detailed_issues ++ (checkValidation s {}).detailed_issues := by
  unfold checkValidation
  by_cases h1 : dictTruthy s.context_validation
  · simp only [h1, if_true]
    split <;> simp
  · simp [h1]

/-- The workflow check emits no issues. -/
theorem checkWorkflow_issues (s : AgentState) (acc : SentinelAcc) :
    (checkWorkflow s acc).detailed_issues = acc.detailed_issues := by
  unfold checkWorkflow
  split <;> rfl

/-- Issue contribution of the error check. -/
theorem checkError_issues (s : AgentState) (acc : SentinelAcc) :
    (checkError s acc).detailed_issues =
      acc.detailed_issues ++ (checkError s {}).detailed_issues := by
  unfold checkError
  by_cases he : strTruthy s.error <;> simp [he]

/-- The sentinel's issues are the concatenation of the per-check contributions, in source order. -/
theorem sentinel_issues_decomp (s : AgentState) :
    (sentinelAcc s).detailed_issues =
      (checkPlugin s {}).detailed_issues ++ (checkPlanning s {}).detailed_issues ++
      (checkPolicy s {}).detailed_issues ++ (checkContext s {}).detailed_issues ++
      (checkValidation s {}).detailed_issues ++ (checkError s {}).detailed_issues := by
  unfold sentinelAcc
  rw [checkError_issues, checkWorkflow_issues, checkValidation_issues, checkContext_issues,
    checkPolicy_issues, checkPlanning_issues, checkAnalysis_issues, checkPlugin_issues]
  simp [sentinelInit, List.append_assoc]

/-- Predicate of the amended C6 aggregation: a non-actionable high or critical issue. -/
def nonActHC (i : ReviewIssue) : Bool := !i.actionable && isHighOrCritical i

/-- Every plugin-check issue is actionable. -/
theorem plugin_issues_actionable (s : AgentState) :
    ∀ i ∈ (checkPlugin s {}).detailed_issues, i.actionable = true := by
  unfold checkPlugin
  rcases s.plugin_result with _ | pr
  · intro i hi; cases hi
  · by_cases hf : pr.failed.isEmpty <;> simp [hf]

/-- Every planning-check issue is actionable. -/
theorem planning_issues_actionable (s : AgentState) :
    ∀ i ∈ (checkPlanning s {}).detailed_issues, i.actionable = true := by
  unfold checkPlanning
  split <;> simp

/-- Every context-check issue is actionable. -/
theorem context_issues_actionable (s : AgentState) :
    ∀ i ∈ (checkContext s {}).detailed_issues, i.actionable = true := by
  unfold checkContext
  rcases s.retrieved_context with _ | rc
  · simp
  · by_cases he : rc.isEmpty
    · simp [he]
    · by_cases hn : (jGetLs rc "memory_snippets").length = 0 <;> simp [he, hn]

/-- Every validation-check issue is actionable. -/
theorem validation_issues_actionable (s : AgentState) :
    ∀ i ∈ (checkValidation s {}).detailed_issues, i.actionable = true := by
  unfold checkValidation
  split
  · split <;> simp
  · simp

/-- Every error-check issue is actionable. -/
theorem error_issues_actionable (s : AgentState) :
    ∀ i ∈ (checkError s {}).detailed_issues, i.actionable = true := by
  unfold checkError
  split <;> simp

/-- The policy check is the sole source of non-actionable high/critical issues, and emits one exactly when its trigger fires. -/
theorem policy_issues_nonActHC (s : AgentState) :
    ((checkPolicy s {}).detailed_issues.filter nonActHC).isEmpty = !policyTrigger s := by
  unfold checkPolicy policyTrigger
  rcases s.policy_decision with _ | pd
  · simp
  · by_cases hh : pd.requires_human
    · simp [hh, nonActHC, isHighOrCritical]
    · by_cases ha : pd.allowed <;> simp [hh, ha, nonActHC, isHighOrCritical]

/-- Lists of actionable issues contain no non-actionable high/critical issue. -/
theorem filter_nonActHC_of_actionable {l : List ReviewIssue}
    (h : ∀ i ∈ l, i.actionable = true) : l.filter nonActHC = [] := by
  apply List.filter_eq_nil_iff.mpr
  intro i hi
  simp [nonActHC, h i hi]

/-- A non-actionable high/critical issue exists in the sentinel output exactly when the policy trigger fires. -/
theorem sentinel_nonActHC (s : AgentState) :
    (((sentinelAcc s).detailed_issues.filter nonActHC)).isEmpty = !policyTrigger s := by
  rw [sentinel_issues_decomp]
  simp only [List.filter_append]
  rw [filter_nonActHC_of_actionable (plugin_issues_actionable s),
    filter_nonActHC_of_actionable (planning_issues_actionable s),
    filter_nonActHC_of_actionable (context_issues_actionable s),
    filter_nonActHC_of_actionable (validation_issues_actionable s),
    filter_nonActHC_of_actionable (error_issues_actionable s)]
  simp only [List.nil_append, List.append_nil]
  exact policy_issues_nonActHC s

/-- Closed form of the sentinel summary: the generic count string wins over the rendered message once a high/critical issue exists. -/
theorem sentinelSummary_eq (s : AgentState) (issues : List ReviewIssue) :
    sentinelSummary s issues =
      (if (issues.filter isHighOrCritical).isEmpty then
         (if strTruthy s.rendered_message then s.rendered_message.getD ""
          else "Workflow completed")
       else "Workflow completed with " ++
         toString (issues.filter isHighOrCritical).length ++ " critical issue(s)") := by
  unfold sentinelSummary
  cases hI : issues.isEmpty
  · simp only [Bool.not_false, if_true]
    cases hF : (issues.filter isHighOrCritical).isEmpty
    · have : 0 < (issues.filter isHighOrCritical).length := by
        rcases (filter_ne_nil_iff_exists _ _).mp hF with ⟨i, hi, hp⟩
        exact List.length_pos.mpr (List.ne_nil_of_mem (List.mem_filter.mpr ⟨hi, hp⟩))
      simp [this]
    · have : (issues.filter isHighOrCritical).length = 0 := by
        rw [List.isEmpty_iff] at hF
        simp [hF]
      simp [this]
  · have hnil : issues = [] := List.isEmpty_iff.mp hI
    subst hnil
    simp

/-! ## Claim C6 -/

/-- State used by the C6 counterexample: a failed dispatch with a rendered message and
no policy issue. -/
def c6CexState : AgentState :=
  { plugin_result := some { plugin_name := "demo", dispatched_count := 1, failed := ["b@x.com"] }
    planned_actions := some [[("step", JVal.s "x")]]
    rendered_message := some "hello world"
    requires_human_approval := some false
    retry_count := some 0 }

/-- C6 (counterexample): the claim's formula `requires_human = prior OR some
non-actionable high/critical issue` fails on a plugin failure (an actionable high
issue also sets `requires_human`), and the summary is not the rendered message even
though one is present, because a high/critical issue overwrites it. -/
theorem C6_counterexample :
    (sentinelReview c6CexState).requires_human = true ∧
    ((sentinelReview c6CexState).detailed_issues.filter nonActHC).isEmpty = true ∧
    c6CexState.requires_human_approval = some false ∧
    strTruthy c6CexState.rendered_message = true ∧
    (sentinelReview c6CexState).summary ≠ c6CexState.rendered_message.getD "" := by
  decide

/-- C6 (amended): the sentinel's `requires_human` equals the prior state flag OR the
presence of a non-actionable high/critical issue OR a failed plugin dispatch OR a set
error field; `approved` is its negation; and the summary is the rendered message (or
a default) only when no high/critical issue exists, otherwise the generic string
counting high/critical issues. -/
theorem C6_sentinel_aggregate (s : AgentState) :
    (sentinelReview s).requires_human =
      (s.requires_human_approval.getD false ||
        !((sentinelReview s).detailed_issues.filter nonActHC).isEmpty ||
        pluginFailed s || strTruthy s.error) ∧
    (sentinelReview s).approved = !(sentinelReview s).requires_human ∧
    (sentinelReview s).summary =
      (if ((sentinelReview s).detailed_issues.filter isHighOrCritical).isEmpty then
         (if strTruthy s.rendered_message then s.rendered_message.getD ""
          else "Workflow completed")
       else "Workflow completed with " ++
         toString ((sentinelReview s).detailed_issues.filter isHighOrCritical).length ++
         " critical issue(s)") := by
  have hissues : (sentinelReview s).detailed_issues = (sentinelAcc s).detailed_issues := rfl
  have hrh : (sentinelReview s).requires_human = (sentinelAcc s).requires_human := rfl
  refine ⟨?_, rfl, ?_⟩
  · rw [hrh, hissues, sentinel_rh, sentinel_nonActHC, Bool.not_not]
    cases s.requires_human_approval.getD false <;>
      cases pluginFailed s <;> cases policyTrigger s <;> cases strTruthy s.error <;> rfl
  · rw [hissues]
    have hsum : (sentinelReview s).summary =
        sentinelSummary s (sentinelAcc s).detailed_issues := rfl
    rw [hsum, sentinelSummary_eq]

/-- The analysis check does not touch the routing context. -/
theorem checkAnalysis_rc (s : AgentState) (acc : SentinelAcc) :
    (checkAnalysis s acc).routing_context = acc.routing_context := by
  unfold checkAnalysis
  split <;> rfl

/-- The planning check only writes the `empty_plan` routing key. -/
theorem checkPlanning_rc (s : AgentState) (acc : SentinelAcc) (k : String)
    (h : k ≠ "empty_plan") :
    jGet (checkPlanning s acc).routing_context k = jGet acc.routing_context k := by
  unfold checkPlanning
  split
  · simp only
    rw [jGet_jSet_ne _ _ _ _ (Ne.symm h)]
  · rfl

/-- The policy check only writes the `policy_blocked`/`policy_reason` routing keys. -/
theorem checkPolicy_rc (s : AgentState) (acc : SentinelAcc) (k : String)
    (h1 : k ≠ "policy_blocked") (h2 : k ≠ "policy_reason") :
    jGet (checkPolicy s acc).routing_context k = jGet acc.routing_context k := by
  unfold checkPolicy
  rcases s.policy_decision with _ | pd
  · rfl
  · by_cases hh : pd.requires_human
    · simp only [hh, if_true]
      rw [jGet_jSet_ne _ _ _ _ (Ne.symm h2), jGet_jSet_ne _ _ _ _ (Ne.symm h1)]
    · by_cases ha : pd.allowed <;> simp [hh, ha]

/-- The context check only writes the `low_context` routing key. -/
theorem checkContext_rc (s : AgentState) (acc : SentinelAcc) (k : String)
    (h : k ≠ "low_context") :
    jGet (checkContext s acc).routing_context k = jGet acc.routing_context k := by
  unfold checkContext
  rcases s.retrieved_context with _ | rc
  · rfl
  · by_cases he : rc.isEmpty
    · simp [he]
    · by_cases hn : (jGetLs rc "memory_snippets").length = 0
      · simp only [he, hn, Bool.false_eq_true, if_false, if_true]
        rw [jGet_jSet_ne _ _ _ _ (Ne.symm h)]
      · simp [he, hn]

/-- The validation check does not touch the routing context. -/
theorem checkValidation_rc (s : AgentState) (acc : SentinelAcc) :
    (checkValidation s acc).routing_context = acc.routing_context := by
  unfold checkValidation
  split
  · split <;> rfl
  · rfl

/-- The workflow check only writes the `workflow` routing key. -/
theorem checkWorkflow_rc (s : AgentState) (acc : SentinelAcc) (k : String)
    (h : k ≠ "workflow") :
    jGet (checkWorkflow s acc).routing_context k = jGet acc.routing_context k := by
  unfold checkWorkflow
  split
  · simp only
    rw [jGet_jSet_ne _ _ _ _ (Ne.symm h)]
  · rfl

/-- The error check only writes the `execution_error` routing key. -/
theorem checkError_rc (s : AgentState) (acc : SentinelAcc) (k : String)
    (h : k ≠ "execution_error") :
    jGet (checkError s acc).routing_context k = jGet acc.routing_context k := by
  unfold checkError
  split
  · simp only
    rw [jGet_jSet_ne _ _ _ _ (Ne.symm h)]
  · rfl

/-- The plugin-failure routing keys survive all later checks. -/
theorem sentinel_rc_failed_plugin (s : AgentState) (k : String)
    (hk : k = "failed_plugin" ∨ k = "failed_recipients") :
    jGet (sentinelAcc s).routing_context k =
      jGet (checkPlugin s (sentinelInit s)).routing_context k := by
  have h1 : k ≠ "empty_plan" := by rcases hk with h | h <;> subst h <;> decide
  have h2 : k ≠ "policy_blocked" := by rcases hk with h | h <;> subst h <;> decide
  have h3 : k ≠ "policy_reason" := by rcases hk with h | h <;> subst h <;> decide
  have h4 : k ≠ "low_context" := by rcases hk with h | h <;> subst h <;> decide
  have h5 : k ≠ "workflow" := by rcases hk with h | h <;> subst h <;> decide
  have h6 : k ≠ "execution_error" := by rcases hk with h | h <;> subst h <;> decide
  unfold sentinelAcc
  rw [checkError_rc _ _ _ h6, checkWorkflow_rc _ _ _ h5, checkValidation_rc,
    checkContext_rc _ _ _ h4, checkPolicy_rc _ _ _ h2 h3, checkPlanning_rc _ _ _ h1,
    checkAnalysis_rc]

/-- Success steps of earlier checks survive the analysis check. -/
theorem checkAnalysis_steps (s : AgentState) (acc : SentinelAcc) (x : String)
    (h : x ∈ acc.successful_steps) : x ∈ (checkAnalysis s acc).successful_steps := by
  unfold checkAnalysis
  split
  · exact List.mem_append_left _ h
  · exact h

/-- Success steps of earlier checks survive the planning check. -/
theorem checkPlanning_steps (s : AgentState) (acc : SentinelAcc) (x : String)
    (h : x ∈ acc.successful_steps) : x ∈ (checkPlanning s acc).successful_steps := by
  unfold checkPlanning
  split
  · exact h
  · exact h

/-- Success steps of earlier checks survive the policy check. -/
theorem checkPolicy_steps (s : AgentState) (acc : SentinelAcc) (x : String)
    (h : x ∈ acc.successful_steps) : x ∈ (checkPolicy s acc).successful_steps := by
  unfold checkPolicy
  rcases s.policy_decision with _ | pd
  · exact h
  · by_cases hh : pd.requires_human
    · simp only [hh, if_true]
      exact h
    · by_cases ha : pd.allowed <;> simp only [hh, ha] <;> simp only [Bool.not_true,
        Bool.not_false, Bool.false_eq_true, if_false, if_true]
      · exact List.mem_append_left _ h
      · exact h

/-- Success steps of earlier checks survive the context check. -/
theorem checkContext_steps (s : AgentState) (acc : SentinelAcc) (x : String)
    (h : x ∈ acc.successful_steps) : x ∈ (checkContext s acc).successful_steps := by
  unfold checkContext
  rcases s.retrieved_context with _ | rc
  · exact h
  · by_cases he : rc.isEmpty
    · simp only [he, if_true]
      exact h
    · by_cases hn : (jGetLs rc "memory_snippets").length = 0 <;>
        simp only [he, hn, Bool.false_eq_true, if_false, if_true]
      · exact h
      · exact List.mem_append_left _ h

/-- Success steps of earlier checks survive the validation check. -/
theorem checkValidation_steps (s : AgentState) (acc : SentinelAcc) (x : String)
    (h : x ∈ acc.successful_steps) : x ∈ (checkValidation s acc).successful_steps := by
  unfold checkValidation
  split
  · split
    · exact h
    · exact h
  · exact h

/-- Success steps of earlier checks survive the workflow check. -/
theorem checkWorkflow_steps (s : AgentState) (acc : SentinelAcc) (x : String)
    (h : x ∈ acc.successful_steps) : x ∈ (checkWorkflow s acc).successful_steps := by
  unfold checkWorkflow
  split
  · exact List.mem_append_left _ h
  · exact h

/-- Success steps of earlier checks survive the error check. -/
theorem checkError_steps (s : AgentState) (acc : SentinelAcc) (x : String)
    (h : x ∈ acc.successful_steps) : x ∈ (checkError s acc).successful_steps := by
  unfold checkError
  split
  · exact h
  · exact h

/-- The issue emitted by the plugin check on failed deliveries. -/
def pluginFailIssue (pr : PluginDispatchResult) : ReviewIssue :=
  { category := ReviewIssueCategory.PLUGIN
    description := "Plugin delivery failed for " ++ toString pr.failed.length ++ " recipient(s)"
    severity := "high"
    context := [("plugin_name", JVal.s pr.plugin_name),
      ("failed_count", JVal.i pr.failed.length),
      ("failed_recipients", JVal.ls pr.failed)]
    actionable := true }

/-! ## Claim C7 -/

/-- C7: when `plugin_result.failed` is non-empty the sentinel output contains a
PLUGIN issue with severity high and `actionable = true`, and its review notes carry
the failed plugin name under `routing_context.failed_plugin` and the failed
recipients under `routing_context.failed_recipients`; when a plugin result is present
with no failures, a plugin-succeeded success step is recorded instead. -/
theorem C7_plugin_failure_issue (s : AgentState) (pr : PluginDispatchResult)
    (hpr : s.plugin_result = some pr) :
    (pr.failed ≠ [] →
      (∃ i ∈ (sentinelReview s).detailed_issues,
        i.category = ReviewIssueCategory.PLUGIN ∧ i.severity = "high" ∧
        i.actionable = true) ∧
      (∃ rn, (sentinelReview s).review_notes = some rn ∧
        jGet rn.routing_context "failed_plugin" = some (JVal.s pr.plugin_name) ∧
        jGet rn.routing_context "failed_recipients" = some (JVal.ls pr.failed))) ∧
    (pr.failed = [] →
      ("Plugin " ++ pr.plugin_name ++ " executed successfully") ∈
        (sentinelAcc s).successful_steps) := by
  constructor
  · intro hfail
    have hf : pr.failed.isEmpty = false := by
      cases hcc : pr.failed
      · exact absurd hcc hfail
      · rfl
    have hpi : (checkPlugin s {}).detailed_issues = [pluginFailIssue pr] := by
      unfold checkPlugin pluginFailIssue
      rw [hpr]
      simp [hf]
    have hmem : pluginFailIssue pr ∈ (sentinelAcc s).detailed_issues := by
      rw [sentinel_issues_decomp, hpi]
      simp
    constructor
    · exact ⟨_, hmem, rfl, rfl, rfl⟩
    · have hcond : (!((sentinelAcc s).detailed_issues).isEmpty ||
          !((sentinelAcc s).routing_context).isEmpty) = true := by
        rw [isEmpty_false_of_mem hmem]
        rfl
      have hrn : (sentinelReview s).review_notes =
          some { workflow_stage := statusPyStr s.status
                 issues_found := (sentinelAcc s).detailed_issues
                 successful_steps := (sentinelAcc s).successful_steps
                 recommendations := (sentinelAcc s).recommendations
                 routing_context := (sentinelAcc s).routing_context } := by
        unfold sentinelReview
        simp only
        rw [hcond, if_pos rfl]
      have hrc : (checkPlugin s (sentinelInit s)).routing_context =
          jSet (jSet (sentinelInit s).routing_context "failed_plugin"
            (JVal.s pr.plugin_name)) "failed_recipients" (JVal.ls pr.failed) := by
        unfold checkPlugin
        rw [hpr]
        simp [hf]
      refine ⟨_, hrn, ?_, ?_⟩
      · simp only
        rw [sentinel_rc_failed_plugin s _ (Or.inl rfl), hrc,
          jGet_jSet_ne _ _ _ _ (by decide), jGet_jSet_self]
      · simp only
        rw [sentinel_rc_failed_plugin s _ (Or.inr rfl), hrc, jGet_jSet_self]
  · intro hok
    have hf : pr.failed.isEmpty = true := by rw [hok]; rfl
    have hstep : ("Plugin " ++ pr.plugin_name ++ " executed successfully") ∈
        (checkPlugin s (sentinelInit s)).successful_steps := by
      unfold checkPlugin
      rw [hpr]
      simp [hf, sentinelInit]
    unfold sentinelAcc
    exact checkError_steps _ _ _ (checkWorkflow_steps _ _ _ (checkValidation_steps _ _ _
      (checkContext_steps _ _ _ (checkPolicy_steps _ _ _ (checkPlanning_steps _ _ _
        (checkAnalysis_steps _ _ _ hstep))))))

/-- The issue emitted by the policy check when the decision requires a human. -/
def policyHumanIssue (pd : PolicyDecision) : ReviewIssue :=
  { category := ReviewIssueCategory.POLICY
    description := "Policy requires human approval: " ++ pd.reason
    severity := "high"
    context := [("policy_reason", JVal.s pd.reason),
      ("policy_version", jOfOptStr pd.policy_version),
      ("tags", JVal.ls pd.tags)]
    actionable := false }

/-! ## Claim C4 -/

/-- State used by the C4 counterexample and witness: a policy decision requiring a
human on an otherwise clean run. -/
def c4State : AgentState :=
  { policy_decision := some { allowed := true, requires_human := true, reason := "needs approval" }
    planned_actions := some [[("step", JVal.s "x")]]
    requires_human_approval := some false
    retry_count := some 0 }

/-- C4 (counterexample): the sentinel does emit the POLICY/high/non-actionable issue,
but at `retry_count = 0` with the default budget the review agent returns RETRY, not
COMPLETE — the critical short-circuit requires severity `critical` and this issue is
`high`. -/
theorem C4_counterexample :
    (∃ i ∈ (sentinelReview c4State).detailed_issues,
      i.category = ReviewIssueCategory.POLICY ∧ i.severity = "high" ∧
      i.actionable = false) ∧
    intOr0 c4State.retry_count = 0 ∧
    (evaluate (reviewAgentMaxRetries none defaultReviewMaxRetries)
      (review_outcome c4State)).1 = ReviewAction.RETRY := by
  decide

/-- C4 (amended): for a state whose policy decision has `requires_human = true` and
`allowed = true` and no other issue source, the sentinel emits exactly one POLICY
issue with severity high and `actionable = false` and the feedback is unapproved;
the review agent then returns RETRY while `retry_count < max_retries` and COMPLETE
only once the budget is exhausted (the non-actionable short-circuit needs severity
critical). -/
theorem C4_policy_human_gate (maxRetries : Int) (s : AgentState) (pd : PolicyDecision)
    (hpol : s.policy_decision = some pd)
    (hpdh : pd.requires_human = true)
    (hpda : pd.allowed = true)
    (hplug : s.plugin_result = none)
    (hplan : (s.planned_actions.getD []).isEmpty = false)
    (hctx : s.retrieved_context = none)
    (hval : s.context_validation = none)
    (herr : s.error = none)
    (hprior : s.requires_human_approval = some false) :
    (sentinelReview s).detailed_issues = [policyHumanIssue pd] ∧
    (sentinelReview s).approved = false ∧
    (evaluate maxRetries (review_outcome s)).1 =
      (if intOr0 s.retry_count < maxRetries then ReviewAction.RETRY
       else ReviewAction.COMPLETE) := by
  have hissues : (sentinelReview s).detailed_issues = [policyHumanIssue pd] := by
    have h1 : (checkPlugin s {}).detailed_issues = [] := by
      unfold checkPlugin
      rw [hplug]
    have h2 : (checkPlanning s {}).detailed_issues = [] := by
      unfold checkPlanning
      rw [hplan]
      rfl
    have h3 : (checkPolicy s {}).detailed_issues = [policyHumanIssue pd] := by
      unfold checkPolicy policyHumanIssue
      rw [hpol]
      simp [hpdh]
    have h4 : (checkContext s {}).detailed_issues = [] := by
      unfold checkContext
      rw [hctx]
    have h5 : (checkValidation s {}).detailed_issues = [] := by
      unfold checkValidation
      rw [hval]
      rfl
    have h6 : (checkError s {}).detailed_issues = [] := by
      unfold checkError
      rw [herr]
      rfl
    have : (sentinelReview s).detailed_issues = (sentinelAcc s).detailed_issues := rfl
    rw [this, sentinel_issues_decomp, h1, h2, h3, h4, h5, h6]
    rfl
  have happ : (sentinelReview s).approved = false := by
    have hrh : (sentinelReview s).requires_human = (sentinelAcc s).requires_human := rfl
    have : (sentinelReview s).approved = !(sentinelAcc s).requires_human := rfl
    rw [this, sentinel_rh, hprior]
    simp [pluginFailed, hplug, policyTrigger, hpol, hpdh, strTruthy, herr]
  refine ⟨hissues, happ, ?_⟩
  rw [evaluate_fst_some maxRetries (review_outcome s) (sentinelReview s) rfl]
  rw [hissues, happ]
  have hretry : (review_outcome s).retry_count = s.retry_count := rfl
  simp [policyHumanIssue, hretry]

/-! ## Claim C5 -/

/-- State used by the C5 counterexample: an empty plan and nothing else. -/
def c5CexState : AgentState :=
  { requires_human_approval := some false
    retry_count := some 0 }

/-- C5 (counterexample): a run whose only recoverable run-quality issue is an empty
plan stays approved, so the review agent completes immediately at `retry_count = 0`
with budget remaining and without ever setting `requires_human`. -/
theorem C5_counterexample :
    (∃ i ∈ (sentinelReview c5CexState).detailed_issues,
      i.category = ReviewIssueCategory.PLANNING ∧ i.severity = "medium" ∧
      i.actionable = true) ∧
    (sentinelReview c5CexState).approved = true ∧
    intOr0 c5CexState.retry_count = 0 ∧
    (evaluate (reviewAgentMaxRetries none defaultReviewMaxRetries)
      (review_outcome c5CexState)).1 = ReviewAction.COMPLETE ∧
    (review_outcome c5CexState).requires_human_approval = some false := by
  decide

/-- C5 (amended): for a run whose sentinel feedback contains a failed dispatch and
otherwise only recoverable run-quality issues (no policy issue, no execution error),
the feedback is unapproved with `requires_human = true`, every emitted issue is
actionable, and the review agent retries while `retry_count < max_retries`,
completing (escalated, with the approval flag set) only once the budget is
exhausted; run-quality issues that leave the feedback approved complete immediately
without retry. -/
theorem C5_recoverable_issues_retry (maxRetries : Int) (s : AgentState) (pr : PluginDispatchResult)
    (hplug : s.plugin_result = some pr)
    (hfail : pr.failed ≠ [])
    (hpol : s.policy_decision = none)
    (herr : s.error = none)
    (hprior : s.requires_human_approval = some false) :
    (sentinelReview s).requires_human = true ∧
    (sentinelReview s).approved = false ∧
    (∀ i ∈ (sentinelReview s).detailed_issues, i.actionable = true) ∧
    (review_outcome s).requires_human_approval = some true ∧
    (evaluate maxRetries (review_outcome s)).1 =
      (if intOr0 s.retry_count < maxRetries then ReviewAction.RETRY
       else ReviewAction.COMPLETE) := by
  have hf : pr.failed.isEmpty = false := by
    cases hcc : pr.failed
    · exact absurd hcc hfail
    · rfl
  have hrh : (sentinelReview s).requires_human = true := by
    have h0 : (sentinelReview s).requires_human = (sentinelAcc s).requires_human := rfl
    rw [h0, sentinel_rh, hprior]
    simp [pluginFailed, hplug, hf]
  have happ : (sentinelReview s).approved = false := by
    have h0 : (sentinelReview s).approved = !(sentinelAcc s).requires_human := rfl
    have h1 : (sentinelReview s).requires_human = (sentinelAcc s).requires_human := rfl
    rw [h0]
    rw [h1] at hrh
    rw [hrh]
    rfl
  have hact : ∀ i ∈ (sentinelReview s).detailed_issues, i.actionable = true := by
    have h0 : (sentinelReview s).detailed_issues = (sentinelAcc s).detailed_issues := rfl
    rw [h0, sentinel_issues_decomp]
    have hp3 : (checkPolicy s {}).detailed_issues = [] := by
      unfold checkPolicy
      rw [hpol]
    have hp6 : (checkError s {}).detailed_issues = [] := by
      unfold checkError
      rw [herr]
      rfl
    rw [hp3, hp6]
    intro i hi
    simp only [List.append_nil, List.append_assoc, List.mem_append] at hi
    rcases hi with hi | hi | hi | hi
    · exact plugin_issues_actionable s i hi
    · exact planning_issues_actionable s i hi
    · exact context_issues_actionable s i hi
    · exact validation_issues_actionable s i hi
  have houtcome : (review_outcome s).requires_human_approval =
      some ((sentinelReview s).requires_human || s.requires_human_approval.getD false) := rfl
  refine ⟨hrh, happ, hact, ?_, ?_⟩
  · rw [houtcome, hrh]
    rfl
  · rw [evaluate_fst_some maxRetries (review_outcome s) (sentinelReview s) rfl, happ]
    have hNA : (sentinelReview s).detailed_issues.filter (fun i => !i.actionable) = [] :=
      List.filter_eq_nil_iff.mpr (fun i hi => by simp [hact i hi])
    rw [hNA]
    have hretry : (review_outcome s).retry_count = s.retry_count := rfl
    simp [hretry]

/-- Witness for C4 on the concrete human-gated policy state with the default budget. -/
theorem C4_policy_human_gate_witness :
    (sentinelReview c4State).approved = false ∧
    (evaluate 1 (review_outcome c4State)).1 = ReviewAction.RETRY := by
  obtain ⟨-, h2, h3⟩ :=
    C4_policy_human_gate 1 c4State _ rfl rfl rfl rfl (by decide) rfl rfl rfl rfl
  exact ⟨h2, h3.trans (by decide)⟩

/-- State used by the C5 witness: a failed dispatch with a non-empty plan. -/
def c5State : AgentState :=
  { plugin_result := some { plugin_name := "demo", dispatched_count := 1, failed := ["b@x.com"] }
    planned_actions := some [[("step", JVal.s "x")]]
    requires_human_approval := some false
    retry_count := some 0 }

/-- Witness for C5 on a concrete failed dispatch with budget remaining. -/
theorem C5_recoverable_issues_retry_witness :
    (sentinelReview c5State).approved = false ∧
    (review_outcome c5State).requires_human_approval = some true ∧
    (evaluate 1 (review_outcome c5State)).1 = ReviewAction.RETRY := by
  obtain ⟨-, h2, -, h4, h5⟩ :=
    C5_recoverable_issues_retry 1 c5State _ rfl (by decide) rfl rfl rfl
  exact ⟨h2, h4, h5.trans (by decide)⟩

/-- State used by the C7 witness: one failed recipient. -/
def c7State : AgentState :=
  { plugin_result := some { plugin_name := "demo", dispatched_count := 1, failed := ["b@x.com"] } }

/-- Witness for C7 on a concrete failed dispatch. -/
theorem C7_plugin_failure_issue_witness :
    (∃ i ∈ (sentinelReview c7State).detailed_issues,
      i.category = ReviewIssueCategory.PLUGIN ∧ i.severity = "high" ∧
      i.actionable = true) ∧
    (∃ rn, (sentinelReview c7State).review_notes = some rn ∧
      jGet rn.routing_context "failed_plugin" = some (JVal.s "demo") ∧
      jGet rn.routing_context "failed_recipients" = some (JVal.ls ["b@x.com"])) :=
  (C7_plugin_failure_issue c7State
    { plugin_name := "demo", dispatched_count := 1, failed := ["b@x.com"] } rfl).1
    (by decide)

/-! ## Claim C9: directive capture and round-trip lemmas -/

section C9Lemmas

variable {X : Chars}

/-- Text with a non-space head has an empty leading whitespace run. -/
theorem takeWhile_nil_of_head (hne : X ≠ [])
    (hhead : ∀ c, X.head? = some c → isSpaceChar c = false) :
    X.takeWhile isSpaceChar = [] := by
  cases X with
  | nil => rfl
  | cons c xs =>
      rw [List.takeWhile_cons, hhead c rfl]
      rfl

/-- Text with a non-space head survives a leading whitespace strip. -/
theorem dropWhile_self_of_head (hhead : ∀ c, X.head? = some c → isSpaceChar c = false) :
    X.dropWhile isSpaceChar = X := by
  cases X with
  | nil => rfl
  | cons c xs =>
      rw [List.dropWhile_cons, hhead c rfl]
      rfl

/-- Text none of whose characters match survives a `dropWhile`. -/
theorem dropWhile_self_of_all {p : Char → Bool} (h : ∀ c ∈ X, p c = false) :
    X.dropWhile p = X := by
  cases X with
  | nil => rfl
  | cons c xs =>
      rw [List.dropWhile_cons, h c (List.mem_cons_self c xs)]
      rfl

/-- Text with non-space ends is unchanged by `str.strip()`. -/
theorem trim_self (hne : X ≠ [])
    (hhead : ∀ c, X.head? = some c → isSpaceChar c = false)
    (hlast : ∀ c, X.getLast? = some c → isSpaceChar c = false) :
    trimChars X = X := by
  unfold trimChars
  rw [dropWhile_self_of_head hhead]
  have hrev : X.reverse.dropWhile isSpaceChar = X.reverse := by
    cases hr : X.reverse with
    | nil => rfl
    | cons c xs =>
        rw [List.dropWhile_cons]
        have : X.getLast? = some c := by
          rw [← List.head?_reverse, hr]
          rfl
        rw [hlast c this]
        rfl
  rw [hrev, List.reverse_reverse]

/-- Text without `.`/`!` characters is unchanged by `str.strip(\".!\")`. -/
theorem stripDotBang_self (hstop : ∀ c ∈ X, isDotBang c = false) :
    stripDotBang X = X := by
  unfold stripDotBang
  rw [dropWhile_self_of_all hstop]
  have : X.reverse.dropWhile isDotBang = X.reverse :=
    dropWhile_self_of_all (fun c hc => hstop c (List.mem_reverse.mp hc))
  rw [this, List.reverse_reverse]

/-- Text without `.`/`!` characters is captured whole by `[^.!]+`. -/
theorem takeNonStop_self (hstop : ∀ c ∈ X, isDotBang c = false) :
    takeNonStop X = X := by
  unfold takeNonStop
  exact List.takeWhile_eq_self_iff.mpr (fun c hc => by rw [hstop c hc]; rfl)

/-- The regex fragment matches one space followed by a clean pattern, capturing the whole pattern. -/
theorem matchSpacePat_space (hne : X ≠ [])
    (hhead : ∀ c, X.head? = some c → isSpaceChar c = false)
    (hstop : ∀ c ∈ X, isDotBang c = false) :
    matchSpacePat (' ' :: X) = some (X, []) := by
  unfold matchSpacePat
  rw [List.takeWhile_cons, List.dropWhile_cons]
  have hsp : isSpaceChar ' ' = true := by decide
  simp only [hsp, eq_self_iff_true, if_true]
  rw [takeWhile_nil_of_head hne hhead, dropWhile_self_of_head hhead,
    takeNonStop_self hstop]
  have hXe : X.isEmpty = false := by
    cases X
    · exact absurd rfl hne
    · rfl
  simp [hXe, List.drop_length]

/-- After the literal `never`, the text ` do <pattern>` captures the pattern via the optional-`do` path. -/
theorem matchAfterNever_lit (hne : X ≠ [])
    (hhead : ∀ c, X.head? = some c → isSpaceChar c = false)
    (hstop : ∀ c ∈ X, isDotBang c = false) :
    matchAfterNever (' ' :: 'd' :: 'o' :: ' ' :: X) = some (X, []) := by
  have hmsp := matchSpacePat_space hne hhead hstop
  calc matchAfterNever (' ' :: 'd' :: 'o' :: ' ' :: X)
      = (match matchSpacePat (' ' :: X) with
         | some res => some res
         | none => matchSpacePat (' ' :: 'd' :: 'o' :: ' ' :: X)) := rfl
    _ = some (X, []) := by rw [hmsp]

/-- The scanner stops on empty text. -/
theorem finditerFrom_nil (lit : Chars) (tail : Chars → Option (Chars × Chars))
    (fuel : Nat) (prev : Option Char) :
    finditerFrom lit tail fuel prev [] = [] := by
  cases fuel <;> rfl

/-- One scanner step at a leading `never do ` match emits the captured pattern and consumes the whole text. -/
theorem findNever_step (X : Chars) (n : Nat)
    (hman : matchAfterNever (' ' :: 'd' :: 'o' :: ' ' ::X) = some (X, [])) :
    finditerFrom ("never".toList) matchAfterNever (n+1) none
      ('n' :: 'e' :: 'v' :: 'e' :: 'r' :: ' ' :: 'd' :: 'o' :: ' ' ::X) =
    X :: finditerFrom ("never".toList) matchAfterNever n X.getLast? [] := by
  simp only [finditerFrom]
  simp only [boundaryBefore, List.isPrefixOf, beq_self_eq_true, Bool.and_self, true_and,
    and_self, if_true, eq_self_iff_true]
  rw [show List.drop ("never".toList.length)
      ('n' :: 'e' :: 'v' :: 'e' :: 'r' :: ' ' :: 'd' :: 'o' :: ' ' ::X) = ' ' :: 'd' :: 'o' :: ' ' ::X from rfl]
  rw [hman]

/-- The never-regex applied to `never do <pattern>` captures exactly the pattern. -/
theorem findNever_lit {X : Chars} (hne : X ≠ [])
    (hhead : ∀ c, X.head? = some c → isSpaceChar c = false)
    (hstop : ∀ c ∈ X, isDotBang c = false)
    (hlow : lowerChars X = X) :
    findNever ("never do ".toList ++ X) = [X] := by
  have hman := matchAfterNever_lit hne hhead hstop
  unfold findNever
  have hlow2 : lowerChars ("never do ".toList ++ X) = "never do ".toList ++ X := by
    unfold lowerChars
    rw [List.map_append]
    unfold lowerChars at hlow
    rw [hlow]
    rfl
  have hlen : ("never do ".toList ++ X).length = (X.length + 8) + 1 := by
    rw [List.length_append]
    have h9 : ("never do ".toList).length = 9 := by decide
    rw [h9]
    omega
  rw [hlow2, hlen]
  rw [show "never do ".toList ++ X = 'n' :: 'e' :: 'v' :: 'e' :: 'r' :: ' ' :: 'd' :: 'o' :: ' ' ::X from rfl]
  rw [findNever_step X (X.length + 8) hman, finditerFrom_nil]

/-- Clean patterns are fixed points of `_clean_pattern`. -/
theorem cleanPattern_self {X : Chars} (hne : X ≠ [])
    (hhead : ∀ c, X.head? = some c → isSpaceChar c = false)
    (hlast : ∀ c, X.getLast? = some c → isSpaceChar c = false)
    (hstop : ∀ c ∈ X, isDotBang c = false) :
    cleanPattern X = X := by
  unfold cleanPattern
  rw [trim_self hne hhead hlast, stripDotBang_self hstop]

/-- Building a directive from a clean lowercase pattern succeeds without further change. -/
theorem mkPolicyDirective_self {X : Chars} (hne : X ≠ [])
    (hhead : ∀ c, X.head? = some c → isSpaceChar c = false)
    (hlast : ∀ c, X.getLast? = some c → isSpaceChar c = false)
    (hlow : lowerChars X = X) :
    mkPolicyDirective DirectiveKind.never_do X =
      some ⟨DirectiveKind.never_do, X⟩ := by
  unfold mkPolicyDirective
  rw [trim_self hne hhead hlast, hlow]
  have hXe : X.isEmpty = false := by
    cases X
    · exact absurd rfl hne
    · rfl
  simp [hXe]

/-- Parsing `never do <pattern>` yields the never-do directive among its results. -/
theorem parse_c9 {X : Chars} (hne : X ≠ [])
    (hhead : ∀ c, X.head? = some c → isSpaceChar c = false)
    (hlast : ∀ c, X.getLast? = some c → isSpaceChar c = false)
    (hstop : ∀ c ∈ X, isDotBang c = false)
    (hlow : lowerChars X = X) :
    (⟨DirectiveKind.never_do, X⟩ : PolicyDirective) ∈
      parseInstruction ("never do ".toList ++ X) := by
  unfold parseInstruction
  apply List.mem_append_left
  rw [findNever_lit hne hhead hstop hlow]
  have hclean := cleanPattern_self hne hhead hlast hstop
  have hmk := mkPolicyDirective_self hne hhead hlast hlow
  have hXe : X.isEmpty = false := by
    cases X
    · exact absurd rfl hne
    · rfl
  simp only [List.filterMap, hclean, hXe, Bool.false_eq_true, if_false, hmk]
  exact List.mem_singleton.mpr rfl

/-- Request used for the C9 capture step: tenant metadata plus a `policy_feedback`
text of the form `never do <pattern>`. -/
def c9Request (T X : Chars) : OrchestrationRequest :=
  { request_id := "r1".toList
    intent := "feedback".toList
    metadata := [("tenant_id".toList, PyVal.str T),
                 ("policy_feedback".toList, PyVal.str ("never do ".toList ++ X))] }

/-- The feedback text `never do <pattern>` is already stripped. -/
theorem trimChars_lit {X : Chars} (hne : X ≠ [])
    (hlast : ∀ c, X.getLast? = some c → isSpaceChar c = false) :
    trimChars ("never do ".toList ++ X) = "never do ".toList ++ X := by
  unfold trimChars
  rw [show "never do ".toList ++ X = 'n' ::('e' :: 'v' :: 'e' :: 'r' :: ' ' :: 'd' :: 'o' :: ' ' ::X) from rfl]
  rw [List.dropWhile_cons]
  rw [show isSpaceChar 'n' = false from by decide]
  simp only [Bool.false_eq_true, if_false]
  rw [show ('n' ::('e' :: 'v' :: 'e' :: 'r' :: ' ' :: 'd' :: 'o' :: ' ' ::X)) =
    "never do ".toList ++ X from rfl]
  rw [List.reverse_append]
  have hrev : (X.reverse ++ ("never do ".toList).reverse).dropWhile isSpaceChar =
      X.reverse ++ ("never do ".toList).reverse := by
    cases hr : X.reverse with
    | nil =>
        exact absurd (by simpa using hr) hne
    | cons c xs =>
        rw [List.cons_append, List.dropWhile_cons]
        have hc : X.getLast? = some c := by
          rw [← List.head?_reverse, hr]
          rfl
        rw [hlast c hc]
        rfl
  rw [hrev, List.reverse_append, List.reverse_reverse, List.reverse_reverse]

/-- Candidate-text extraction on the capture request returns exactly the feedback text. -/
theorem extract_c9 (T X : Chars) (hne : X ≠ [])
    (hlast : ∀ c, X.getLast? = some c → isSpaceChar c = false) :
    extractCandidateText (c9Request T X) = ["never do ".toList ++ X] := by
  have h0 : extractCandidateText (c9Request T X) =
      [trimChars ("never do ".toList ++ X)].filter (fun t => !t.isEmpty) := rfl
  rw [h0, trimChars_lit hne hlast]
  rfl

/-- The store-add loop keeps every existing directive. -/
theorem addLoop_sub (cur ds : List PolicyDirective) :
    ∀ x ∈ cur, x ∈ (addLoop cur ds).1 := by
  induction ds generalizing cur with
  | nil => intro x hx; exact hx
  | cons d0 rest ih =>
      intro x hx
      unfold addLoop
      by_cases h0 : d0 ∈ cur
      · simp only [h0, if_true]
        exact ih cur x hx
      · simp only [h0, if_false]
        exact ih (cur ++ [d0]) x (List.mem_append_left _ hx)

/-- The store-add loop ends with every offered directive present. -/
theorem addLoop_mem (cur ds : List PolicyDirective) :
    ∀ d ∈ ds, d ∈ (addLoop cur ds).1 := by
  induction ds generalizing cur with
  | nil => intro d hd; cases hd
  | cons d0 rest ih =>
      intro d hd
      unfold addLoop
      rcases List.mem_cons.mp hd with hd0 | hdr
      · subst hd0
        by_cases h0 : d ∈ cur
        · simp only [h0, if_true]
          exact addLoop_sub cur rest d h0
        · simp only [h0, if_false]
          exact addLoop_sub (cur ++ [d]) rest d (List.mem_append_right _ (List.mem_singleton.mpr rfl))
      · by_cases h0 : d0 ∈ cur
        · simp only [h0, if_true]
          exact ih cur d hdr
        · simp only [h0, if_false]
          exact ih (cur ++ [d0]) d hdr

/-- Tenant resolution on the capture request reads the `tenant_id` metadata value. -/
theorem resolveTenant_c9 (T X : Chars) (hT : T ≠ []) :
    resolveTenant (c9Request T X) = T := by
  have hTe : T.isEmpty = false := by
    cases T
    · exact absurd rfl hT
    · rfl
  have h0 : resolveTenant (c9Request T X) =
      (if (!T.isEmpty) = true then T else "default".toList) := rfl
  rw [h0, hTe]
  rfl

/-- A non-empty tenant id is its own store key. -/
theorem tenantKey_self (T : Chars) (hT : T ≠ []) : tenantKey T = T := by
  have hTe : T.isEmpty = false := by
    cases T
    · exact absurd rfl hT
    · rfl
  unfold tenantKey
  rw [hTe]
  rfl

/-- A matching never-do directive anywhere in the list makes the short-circuit scan return a match. -/
theorem firstNeverMatch_blocked (ds : List PolicyDirective) (text : Chars)
    (h : ∃ d ∈ ds, d.directive = DirectiveKind.never_do ∧ containsSub text d.pattern = true) :
    ∃ d2, firstNeverMatch ds text = some d2 := by
  induction ds with
  | nil =>
      rcases h with ⟨d, hd, _⟩
      cases hd
  | cons d0 rest ih =>
      unfold firstNeverMatch
      by_cases h0 : (d0.directive = DirectiveKind.never_do && containsSub text d0.pattern) = true
      · exact ⟨d0, by rw [if_pos h0]⟩
      · rw [if_neg h0]
        rcases h with ⟨d, hd, hnev, hsub⟩
        rcases List.mem_cons.mp hd with hd0 | hdr
        · subst hd0
          exact absurd (by simp [hnev, hsub]) h0
        · exact ih ⟨d, hdr, hnev, hsub⟩

/-- Any matching never-do directive makes the evaluation blocked: not allowed and requiring a human. -/
theorem policyEvaluate_blocked (st : PolicyStore) (req : OrchestrationRequest)
    (h : ∃ d ∈ getDirectives st (resolveTenant req),
      d.directive = DirectiveKind.never_do ∧
      containsSub (flattenRequestText req) d.pattern = true) :
    (policyEvaluate st req).allowed = false ∧
    (policyEvaluate st req).requires_human = true := by
  obtain ⟨d2, hm⟩ := firstNeverMatch_blocked _ _ h
  simp only [policyEvaluate]
  rw [hm]
  exact ⟨rfl, rfl⟩

end C9Lemmas

/-- C9: capturing a request carrying the feedback text `never do X` (for a clean
pattern X: non-empty, no leading/trailing whitespace, no `.`/`!`, lowercase — on
which the cleaning pipeline is the identity) stores the never-do directive with
pattern X for the request's tenant, and a subsequent evaluation of any same-tenant
request whose flattened lowercase text contains X is blocked: `allowed = false` and
`requires_human = true`, short-circuiting on the first matching never-do directive. -/
theorem C9_never_do_round_trip (st : PolicyStore) (T X : Chars) (req2 : OrchestrationRequest)
    (hT : T ≠ [])
    (hne : X ≠ [])
    (hhead : ∀ c, X.head? = some c → isSpaceChar c = false)
    (hlast : ∀ c, X.getLast? = some c → isSpaceChar c = false)
    (hstop : ∀ c ∈ X, isDotBang c = false)
    (hlow : lowerChars X = X)
    (hten2 : resolveTenant req2 = T)
    (hsub : containsSub (flattenRequestText req2) X = true) :
    (⟨DirectiveKind.never_do, X⟩ : PolicyDirective) ∈
      getDirectives (capture st (c9Request T X)).2 T ∧
    (policyEvaluate (capture st (c9Request T X)).2 req2).allowed = false ∧
    (policyEvaluate (capture st (c9Request T X)).2 req2).requires_human = true := by
  have hparse := parse_c9 hne hhead hlast hstop hlow
  have hdirne : (parseInstruction ("never do ".toList ++ X)).isEmpty = false :=
    isEmpty_false_of_mem hparse
  have hcap : (capture st (c9Request T X)).2 =
      (addDirectives st T (parseInstruction ("never do ".toList ++ X))).1 := by
    unfold capture
    rw [resolveTenant_c9 T X hT, extract_c9 T X hne hlast]
    simp only [List.foldl_cons, List.foldl_nil, List.nil_append, hdirne,
      Bool.false_eq_true, if_false]
  have hget : getDirectives
      (addDirectives st T (parseInstruction ("never do ".toList ++ X))).1 T =
      (addLoop (st T) (parseInstruction ("never do ".toList ++ X))).1 := by
    unfold getDirectives addDirectives
    rw [tenantKey_self T hT]
    simp
  have hmem : (⟨DirectiveKind.never_do, X⟩ : PolicyDirective) ∈
      getDirectives (capture st (c9Request T X)).2 T := by
    rw [hcap, hget]
    exact addLoop_mem _ _ _ hparse
  refine ⟨hmem, ?_⟩
  apply policyEvaluate_blocked
  rw [hten2]
  exact ⟨⟨DirectiveKind.never_do, X⟩, hmem, rfl, hsub⟩

/-- Same-tenant request used by the C9 witness, whose flattened text contains the
blocked phrase. -/
def c9Req2 : OrchestrationRequest :=
  { request_id := "r2".toList
    intent := "please send spam now".toList
    metadata := [("tenant_id".toList, PyVal.str ("acme".toList))] }

/-- Witness for C9 on the concrete phrase `send spam` for tenant `acme`. -/
theorem C9_never_do_round_trip_witness :
    (⟨DirectiveKind.never_do, "send spam".toList⟩ : PolicyDirective) ∈
      getDirectives (capture emptyPolicyStore
        (c9Request ("acme".toList) ("send spam".toList))).2 ("acme".toList) ∧
    (policyEvaluate (capture emptyPolicyStore
        (c9Request ("acme".toList) ("send spam".toList))).2 c9Req2).allowed = false ∧
    (policyEvaluate (capture emptyPolicyStore
        (c9Request ("acme".toList) ("send spam".toList))).2 c9Req2).requires_human = true :=
  C9_never_do_round_trip emptyPolicyStore ("acme".toList) ("send spam".toList) c9Req2
    (by decide) (by decide)
    (by intro c hc; injection hc with h; subst h; decide)
    (by intro c hc; injection hc with h; subst h; decide)
    (by decide) (by decide) (by decide) (by decide)
